import Mathlib

/-!
Verification development for the provisioning orchestration core of the
Deployment-VirtualMachine backend (app/history/terraform.py,
app/history/decorators.py, app/history/service.py,
app/vm/terraform_manager.py).

Python values that flow through the tracker and the Terraform output
parsing are modelled by the JSON-like inductive `JValue`; Python dicts are
association lists in insertion order, with `dictInsert` modelling the
assignment `d[k] = v` (overwrite keeps position, new keys append) and
`pyGet` modelling `d.get(k)`.
-/

inductive JValue where
  | jNull : JValue
  | jBool (b : Bool) : JValue
  | jNum (n : Int) : JValue
  | jStr (s : String) : JValue
  | jArr (xs : List JValue) : JValue
  | jObj (fields : List (String × JValue)) : JValue
  deriving Repr

abbrev JDict := List (String × JValue)

/-- Model of Python `d.get(k)` on a dict represented as an association list
whose keys are unique (all builders below keep keys unique). -/
def pyGet (d : JDict) (k : String) : Option JValue :=
  match d.find? (fun kv => kv.1 = k) with
  | some kv => some kv.2
  | none => none

/-- Model of the Python dict assignment `d[k] = v`: an existing key keeps
its position and gets the new value, a new key is appended. -/
def dictInsert (k : String) (v : JValue) (d : JDict) : JDict :=
  if d.any (fun kv => kv.1 = k) then
    d.map (fun kv => if kv.1 = k then (k, v) else kv)
  else
    d ++ [(k, v)]

/-- Model of `d[k] = v` for string-valued dicts (used for the process
environment and the parsed output-values dict). -/
def strDictInsert (k v : String) (d : List (String × String)) :
    List (String × String) :=
  if d.any (fun kv => kv.1 = k) then
    d.map (fun kv => if kv.1 = k then (k, v) else kv)
  else
    d ++ [(k, v)]

def strDictGet (d : List (String × String)) (k : String) : Option String :=
  match d.find? (fun kv => kv.1 = k) with
  | some kv => some kv.2
  | none => none

/-- Substring test on character lists: true iff `needle` occurs
contiguously in `hay` (model of Python `needle in hay`). -/
def containsSub (hay needle : List Char) : Bool :=
  needle.isPrefixOf hay ||
    match hay with
    | [] => false
    | _ :: t => containsSub t needle

def strContains (hay needle : String) : Bool :=
  containsSub hay.toList needle.toList

/-- The fixed sensitive-substring set of
`TerraformExecutor._mask_sensitive_data`. -/
def sensitiveFields : List String :=
  ["password", "secret", "key", "token", "private_key",
   "access_key", "secret_key", "aws_secret_access_key"]

/-- Model of Python `str.lower()` (ASCII inputs). -/
def pyLower (s : String) : String := String.mk (s.toList.map Char.toLower)

/-- Model of `any(field in key.lower() for field in sensitive_fields)`. -/
def isSensitiveKey (k : String) : Bool :=
  sensitiveFields.any (fun field => strContains (pyLower k) field)

/-- The fixed redaction marker used by `_mask_sensitive_data`. -/
def redactionMarker : String := "******"

/-- Model of `TerraformExecutor._mask_sensitive_data`, acting on the field
list of a dict: nested dict values are masked recursively, string values
under sensitive keys are replaced by the marker, every other value passes
through unchanged. -/
def maskFields : JDict → JDict
  | [] => []
  | (k, JValue.jObj fs) :: rest => (k, JValue.jObj (maskFields fs)) :: maskFields rest
  | (k, JValue.jStr s) :: rest =>
      (if isSensitiveKey k then (k, JValue.jStr redactionMarker)
       else (k, JValue.jStr s)) :: maskFields rest
  | (k, v) :: rest => (k, v) :: maskFields rest

mutual
/-- Model of `HistoryService._ensure_json_serializable` restricted to the
`JValue` domain: dicts and lists are converted recursively; every other
`JValue` is already JSON-serializable, and the Python function returns it
unchanged (the datetime/enum/set branches have no preimage in `JValue`). -/
def ensureJsonSerializable : JValue → JValue
  | JValue.jObj fs => JValue.jObj (ensureObj fs)
  | JValue.jArr xs => JValue.jArr (ensureArr xs)
  | v => v

def ensureObj : JDict → JDict
  | [] => []
  | (k, v) :: rest => (k, ensureJsonSerializable v) :: ensureObj rest

def ensureArr : List JValue → List JValue
  | [] => []
  | v :: rest => ensureJsonSerializable v :: ensureArr rest
end

mutual
/-- Model of Python `repr` on `JValue` (string escaping inside `repr` of a
string is not reproduced; no claim depends on it). -/
def pyRepr : JValue → String
  | JValue.jNull => "None"
  | JValue.jBool true => "True"
  | JValue.jBool false => "False"
  | JValue.jNum n => toString n
  | JValue.jStr s => "'" ++ s ++ "'"
  | JValue.jArr xs => "[" ++ pyReprArr xs ++ "]"
  | JValue.jObj fs => "\x7b" ++ pyReprObj fs ++ "\x7d"

def pyReprArr : List JValue → String
  | [] => ""
  | [v] => pyRepr v
  | v :: rest => pyRepr v ++ ", " ++ pyReprArr rest

def pyReprObj : JDict → String
  | [] => ""
  | [(k, v)] => "'" ++ k ++ "': " ++ pyRepr v
  | (k, v) :: rest => "'" ++ k ++ "': " ++ pyRepr v ++ ", " ++ pyReprObj rest
end

/-- Model of Python `str(value)` on `JValue` (for strings `str` is the
identity; composite values fall back to their `repr`). -/
def pyStr : JValue → String
  | JValue.jStr s => s
  | JValue.jNull => "None"
  | JValue.jBool true => "True"
  | JValue.jBool false => "False"
  | JValue.jNum n => toString n
  | JValue.jArr xs => pyRepr (JValue.jArr xs)
  | JValue.jObj fs => pyRepr (JValue.jObj fs)

/-!
Event store model (app/history/models.py, app/history/service.py).

`Event.status` and `Event.event_type` are `String` columns; the services
convert enum arguments to their `.value` string before storing, so the
models below take the status/event-type strings directly (for example
`EventStatus.SUCCESS.value = "success"` and
`TerraformStatus.COMPLETED.value = "completed"`).

Times are rationals; `time.time()` readings are passed in as explicit
clock values, and a duration is the difference of two readings.
-/

structure Event where
  id : Nat
  eventType : String
  status : String
  userId : Option Int
  vmId : Option Int
  credentialId : Option Int
  parameters : Option JDict
  result : Option JDict
  errorMessage : Option String
  duration : Option ℚ

abbrev EventStore := List Event

/-- Python exceptions that the modelled code raises or re-raises. -/
inductive PyErr where
  | exception (msg : String) : PyErr
  | valueError (msg : String) : PyErr
  | calledProcessError (code : Int) : PyErr
  deriving Repr, DecidableEq

/-- Model of Python `str(e)` for the exceptions above. -/
def pyErrStr : PyErr → String
  | PyErr.exception m => m
  | PyErr.valueError m => m
  | PyErr.calledProcessError c =>
      "Command returned non-zero exit status " ++ toString c ++ "."

/-- Model of `HistoryService.create_event`: parameters/result are passed
through `_ensure_json_serializable` when truthy (an empty dict is falsy in
Python and skips the conversion, which is the identity on it anyway), the
row is appended and gets the next monotonic id. Returns the new store and
the new event's id. -/
def createEvent (store : EventStore) (eventType : String)
    (userId vmId credentialId : Option Int)
    (parameters result : Option JDict) (errorMessage : Option String)
    (status : String) (duration : Option ℚ) : EventStore × Nat :=
  let params := parameters.map (fun p => if p.isEmpty then p else ensureObj p)
  let res := result.map (fun r => if r.isEmpty then r else ensureObj r)
  let ev : Event :=
    { id := store.length, eventType := eventType, status := status,
      userId := userId, vmId := vmId, credentialId := credentialId,
      parameters := params, result := res, errorMessage := errorMessage,
      duration := duration }
  (store ++ [ev], store.length)

/-- Field updates of `HistoryService.update_event`: only the supplied
(non-`None`) fields change; a supplied result goes through
`_ensure_json_serializable`. -/
def applyEventUpdate (e : Event) (result : Option JDict)
    (errorMessage : Option String) (status : Option String)
    (duration : Option ℚ) : Event :=
  { e with
    result := match result with
      | some r => some (ensureObj r)
      | none => e.result,
    errorMessage := match errorMessage with
      | some m => some m
      | none => e.errorMessage,
    status := match status with
      | some s => s
      | none => e.status,
    duration := match duration with
      | some d => some d
      | none => e.duration }

/-- Model of `HistoryService.update_event`. A missing id raises
`ValueError("Event dengan ID ... tidak ditemukan")`. The final commit may
fail: `dbFail = some m` models `db.commit()` raising an exception with
message `m`, upon which the session is rolled back (store unchanged) and
`ValueError("Error updating event: " ++ m)` is raised. -/
def updateEvent (store : EventStore) (eventId : Nat) (result : Option JDict)
    (errorMessage : Option String) (status : Option String)
    (duration : Option ℚ) (dbFail : Option String) :
    Except PyErr EventStore :=
  if store.any (fun e => e.id = eventId) then
    match dbFail with
    | some m => Except.error (PyErr.valueError ("Error updating event: " ++ m))
    | none =>
        Except.ok (store.map (fun e =>
          if e.id = eventId then
            applyEventUpdate e result errorMessage status duration
          else e))
  else
    Except.error (PyErr.valueError
      ("Event dengan ID " ++ toString eventId ++ " tidak ditemukan"))

/-- `update_event` at a call site where the id is known to exist and the
commit is modelled as succeeding (used inside `TerraformExecutor.execute`,
whose event id always exists; the `getD` default is unreachable there). -/
def updateEventOk (store : EventStore) (eventId : Nat) (result : Option JDict)
    (errorMessage : Option String) (status : Option String)
    (duration : Option ℚ) : EventStore :=
  match updateEvent store eventId result errorMessage status duration none with
  | Except.ok s => s
  | Except.error _ => store

def storeGet (store : EventStore) (eventId : Nat) : Option Event :=
  store.find? (fun e => e.id = eventId)

/-!
Operation tracker model (app/history/decorators.py).

`HistoryTracker.__call__` wraps a function. The wrapper's run on one
invocation is modelled by `trackerRun`: the serialized parameter snapshot
(`_get_function_params` output) is an input, the wrapped call's outcome is
an input (`Except` value: normal return or raised exception), and the two
`time.time()` readings around the call are inputs. `dbFail` models the
database commit behaviour of every `update_event` call in this run
(`none` = commits succeed, `some m` = each commit raises an exception with
message `m`); the second `time.time()` reading of the except branch is
identified with `endT` (a jitter-free clock).
-/

structure TrackerConfig where
  eventType : String
  getUserId : Option (JDict → Option Int)
  getVmId : Option (JDict → Option Int)
  getCredentialId : Option (JDict → Option Int)
  initialStatus : String
  successStatus : String
  errorStatus : String
  excludeParams : List String

/-- Model of `HistoryTracker._get_param_value`. -/
def getParamValue (getter : Option (JDict → Option Int)) (params : JDict) :
    Option Int :=
  match getter with
  | some f => f params
  | none => none

/-- Model of `HistoryTracker._handle_non_serializable` restricted to the
`JValue` domain (same recursion as `_ensure_json_serializable`). -/
def handleNonSerializable : JValue → JValue := ensureJsonSerializable

/-- Model of `HistoryTracker._prepare_result_data`: `None` results are kept
as `None` (so `update_event` leaves the result column alone), dicts go
through `_handle_non_serializable`, any other value is wrapped as
a dict with a single stringified entry under the "result" key. Objects with
a `dict()` method or a `__dict__` have no preimage in `JValue`. -/
def prepareResultData : JValue → Option JDict
  | JValue.jNull => none
  | JValue.jObj fs => some (ensureObj fs)
  | v => some [("result", JValue.jStr (pyStr v))]

/-- One run of the wrapper produced by `HistoryTracker.__call__` on an
invocation whose db session is present (the tracked path). Returns the
final store, the sequence of status values written for the created event,
and the outcome seen by the wrapper's caller. -/
def trackerRun (cfg : TrackerConfig) (params : JDict) (store0 : EventStore)
    (op : Except PyErr JValue) (startT endT : ℚ) (dbFail : Option String) :
    EventStore × List String × Except PyErr JValue :=
  let filtered := params.filter (fun kv => !(decide (kv.1 ∈ cfg.excludeParams)))
  let userId := getParamValue cfg.getUserId params
  let vmId := getParamValue cfg.getVmId params
  let credentialId := getParamValue cfg.getCredentialId params
  let created := createEvent store0 cfg.eventType userId vmId credentialId
    (some filtered) none none cfg.initialStatus none
  let store1 := created.1
  let evId := created.2
  match op with
  | Except.ok result =>
      let duration := endT - startT
      let resultData := prepareResultData result
      match updateEvent store1 evId resultData none (some cfg.successStatus)
          (some duration) dbFail with
      | Except.ok store2 =>
          (store2, [cfg.initialStatus, cfg.successStatus], Except.ok result)
      | Except.error e2 =>
          match updateEvent store1 evId none (some (pyErrStr e2))
              (some cfg.errorStatus) (some duration) dbFail with
          | Except.ok store2 =>
              (store2, [cfg.initialStatus, cfg.errorStatus], Except.error e2)
          | Except.error e3 => (store1, [cfg.initialStatus], Except.error e3)
  | Except.error e =>
      let duration := endT - startT
      match updateEvent store1 evId none (some (pyErrStr e))
          (some cfg.errorStatus) (some duration) dbFail with
      | Except.ok store2 =>
          (store2, [cfg.initialStatus, cfg.errorStatus], Except.error e)
      | Except.error e2 => (store1, [cfg.initialStatus], Except.error e2)

/-- Model of `TerraformTracker.__init__`: the statuses are fixed to
pending/success/failed. -/
def terraformTrackerConfig (eventType : String)
    (getUserId getVmId getCredentialId : Option (JDict → Option Int))
    (excludeParams : List String) : TrackerConfig :=
  { eventType := eventType, getUserId := getUserId, getVmId := getVmId,
    getCredentialId := getCredentialId, initialStatus := "pending",
    successStatus := "success", errorStatus := "failed",
    excludeParams := excludeParams }

/-- One run of the wrapper produced by `TerraformTracker.__call__` on the
tracked path: identical to `trackerRun` except that, inside the `try`
block and before invoking the wrapped function, the event is updated to
`TerraformStatus.PROVISIONING`; a failure of that update is caught by the
except branch like any other exception. -/
def terraformTrackerRun (cfg : TrackerConfig) (params : JDict)
    (store0 : EventStore) (op : Except PyErr JValue) (startT endT : ℚ)
    (dbFail : Option String) :
    EventStore × List String × Except PyErr JValue :=
  let filtered := params.filter (fun kv => !(decide (kv.1 ∈ cfg.excludeParams)))
  let userId := getParamValue cfg.getUserId params
  let vmId := getParamValue cfg.getVmId params
  let credentialId := getParamValue cfg.getCredentialId params
  let created := createEvent store0 cfg.eventType userId vmId credentialId
    (some filtered) none none cfg.initialStatus none
  let store1 := created.1
  let evId := created.2
  match updateEvent store1 evId none none (some "provisioning") none dbFail with
  | Except.error eProv =>
      let duration := endT - startT
      match updateEvent store1 evId none (some (pyErrStr eProv))
          (some cfg.errorStatus) (some duration) dbFail with
      | Except.ok store2 =>
          (store2, [cfg.initialStatus, cfg.errorStatus], Except.error eProv)
      | Except.error e2 => (store1, [cfg.initialStatus], Except.error e2)
  | Except.ok store2 =>
      match op with
      | Except.ok result =>
          let duration := endT - startT
          let resultData := prepareResultData result
          match updateEvent store2 evId resultData none
              (some cfg.successStatus) (some duration) dbFail with
          | Except.ok store3 =>
              (store3, [cfg.initialStatus, "provisioning", cfg.successStatus],
               Except.ok result)
          | Except.error e2 =>
              match updateEvent store2 evId none (some (pyErrStr e2))
                  (some cfg.errorStatus) (some duration) dbFail with
              | Except.ok store3 =>
                  (store3, [cfg.initialStatus, "provisioning", cfg.errorStatus],
                   Except.error e2)
              | Except.error e3 =>
                  (store2, [cfg.initialStatus, "provisioning"], Except.error e3)
      | Except.error e =>
          let duration := endT - startT
          match updateEvent store2 evId none (some (pyErrStr e))
              (some cfg.errorStatus) (some duration) dbFail with
          | Except.ok store3 =>
              (store3, [cfg.initialStatus, "provisioning", cfg.errorStatus],
               Except.error e)
          | Except.error e2 =>
              (store2, [cfg.initialStatus, "provisioning"], Except.error e2)

/-!
Output parsing model (TerraformExecutor._parse_terraform_output and
helpers). Each Python regex is small enough to model exactly: the
character classes involved are pairwise disjoint from the characters that
follow them, so greedy matching never backtracks and each pattern has a
deterministic scanner. `re.search` is leftmost match; `re.findall` and
`re.finditer` resume after the end of the previous match.
-/

/-- Python `\s` (ASCII whitespace of the inputs at hand). -/
def pyWsChar (c : Char) : Bool :=
  c = ' ' || c = '\t' || c = '\n' || c = '\r' || c = '\x0b' || c = '\x0c'

/-- Python `\w`. -/
def isWordChar (c : Char) : Bool :=
  c.isAlphanum || c = '_'

/-- The class `[a-f0-9]` of the AWS instance-id pattern. -/
def isAwsIdChar (c : Char) : Bool :=
  ('a' ≤ c && c ≤ 'f') || c.isDigit

/-- The class `[a-z0-9-]` of the GCP instance-id pattern. -/
def isGcpIdChar (c : Char) : Bool :=
  ('a' ≤ c && c ≤ 'z') || c.isDigit || c = '-'

/-- The class `[\w\._-]` of the resource-name patterns. -/
def isResourceChar (c : Char) : Bool :=
  isWordChar c || c = '.' || c = '-'

/-- Greedy `p+`: the maximal nonempty run of class characters, with the
rest of the input; `none` when the first character is not in the class. -/
def takeWhile1 (p : Char → Bool) (cs : List Char) :
    Option (List Char × List Char) :=
  let run := cs.takeWhile p
  if run.isEmpty then none else some (run, cs.drop run.length)

/-- Literal fragment of a pattern. -/
def matchLit (lit cs : List Char) : Option (List Char) :=
  if lit.isPrefixOf cs then some (cs.drop lit.length) else none

/-- Greedy `\s+`. -/
def matchWs1 (cs : List Char) : Option (List Char) :=
  (takeWhile1 pyWsChar cs).map (fun r => r.2)

/-- Attempted match of `instance_id\s+=\s+(i-[a-f0-9]+)` anchored at the
start of `cs`, returning the captured group. -/
def matchAwsIdAt (cs : List Char) : Option String := do
  let cs1 ← matchLit "instance_id".toList cs
  let cs2 ← matchWs1 cs1
  let cs3 ← matchLit ['='] cs2
  let cs4 ← matchWs1 cs3
  let cs5 ← matchLit ['i', '-'] cs4
  let run ← takeWhile1 isAwsIdChar cs5
  pure (String.mk ('i' :: '-' :: run.1))

/-- Attempted match of `instance_id\s+=\s+([a-z0-9-]+)` anchored at the
start of `cs`. -/
def matchGcpIdAt (cs : List Char) : Option String := do
  let cs1 ← matchLit "instance_id".toList cs
  let cs2 ← matchWs1 cs1
  let cs3 ← matchLit ['='] cs2
  let cs4 ← matchWs1 cs3
  let run ← takeWhile1 isGcpIdChar cs4
  pure (String.mk run.1)

/-- `re.search` scan: the match attempt anchored at the leftmost position
where it succeeds. -/
def scanFor (m : List Char → Option String) : List Char → Option String
  | [] => m []
  | c :: rest =>
      match m (c :: rest) with
      | some s => some s
      | none => scanFor m rest

/-- Model of `TerraformExecutor._parse_instance_id`: the AWS pattern is
searched first over the whole stdout, then the GCP pattern. -/
def parseInstanceId (stdout : String) : Option String :=
  match scanFor matchAwsIdAt stdout.toList with
  | some s => some s
  | none => scanFor matchGcpIdAt stdout.toList

/-- Attempted match of `(\d+\.\d+\.\d+\.\d+)` anchored at the start. -/
def matchIpv4At (cs : List Char) : Option String := do
  let r1 ← takeWhile1 Char.isDigit cs
  let cs1 ← matchLit ['.'] r1.2
  let r2 ← takeWhile1 Char.isDigit cs1
  let cs2 ← matchLit ['.'] r2.2
  let r3 ← takeWhile1 Char.isDigit cs2
  let cs3 ← matchLit ['.'] r3.2
  let r4 ← takeWhile1 Char.isDigit cs3
  pure (String.mk (r1.1 ++ '.' :: r2.1 ++ '.' :: r3.1 ++ '.' :: r4.1))

/-- Attempted match of `<keyword>\s+=\s+(\d+\.\d+\.\d+\.\d+)` anchored at
the start. -/
def matchKeyIpAt (keyword : List Char) (cs : List Char) : Option String := do
  let cs1 ← matchLit keyword cs
  let cs2 ← matchWs1 cs1
  let cs3 ← matchLit ['='] cs2
  let cs4 ← matchWs1 cs3
  matchIpv4At cs4

/-- Model of `TerraformExecutor._parse_ip_address`: a dict with the
public/private IPv4 captures of the two searches, keys present only on a
match. -/
def parseIpAddress (stdout : String) : List (String × String) :=
  let d0 : List (String × String) := []
  let d1 :=
    match scanFor (matchKeyIpAt "public_ip".toList) stdout.toList with
    | some ip => strDictInsert "public_ip" ip d0
    | none => d0
  match scanFor (matchKeyIpAt "private_ip".toList) stdout.toList with
  | some ip => strDictInsert "private_ip" ip d1
  | none => d1

/-- Attempted match of `([\w\._-]+):\s+<word>` anchored at the start,
returning the captured resource name and the rest of the input after the
whole match (for the `re.findall` resumption point). -/
def matchResourceAt (word : List Char) (cs : List Char) :
    Option (String × List Char) := do
  let run ← takeWhile1 isResourceChar cs
  let cs1 ← matchLit [':'] run.2
  let cs2 ← matchWs1 cs1
  let cs3 ← matchLit word cs2
  pure (String.mk run.1, cs3)

/-- `re.findall` over the resource pattern: leftmost matches, scanning
resumes after each match. The fuel argument bounds the recursion; every
step consumes at least one character, so `cs.length` fuel is enough. -/
def findAllRes (word : List Char) : Nat → List Char → List String
  | 0, _ => []
  | _, [] => []
  | Nat.succ fuel, c :: rest =>
      match matchResourceAt word (c :: rest) with
      | some r => r.1 :: findAllRes word fuel r.2
      | none => findAllRes word fuel rest

def findAllResources (word : String) (s : String) : List String :=
  findAllRes word.toList s.toList.length s.toList

/-- Suffix of `hay` after the first occurrence of `needle`, `none` when
`needle` does not occur (the `re.search` for the literal "Outputs:"). -/
def afterFirstSub (needle : List Char) : List Char → Option (List Char)
  | [] => if needle.isEmpty then some [] else none
  | c :: rest =>
      if needle.isPrefixOf (c :: rest) then some ((c :: rest).drop needle.length)
      else afterFirstSub needle rest

/-- Lazy capture of `(.*?)(?=\n\n|\Z)` with DOTALL: everything up to the
first blank line, or to the end when there is none. -/
def takeUntilBlankLine : List Char → List Char
  | [] => []
  | c :: rest =>
      if c = '\n' && rest.head? = some '\n' then []
      else c :: takeUntilBlankLine rest

/-- The lookahead `(?=\n\w+\s+=)` of the per-output pattern. -/
def lookaheadEntry (cs : List Char) : Bool :=
  match cs with
  | '\n' :: rest =>
      (Option.isSome <| do
        let r ← takeWhile1 isWordChar rest
        let cs1 ← matchWs1 r.2
        matchLit ['='] cs1)
  | _ => false

/-- Lazy `(.*?)` growing until the lookahead holds or the text ends. -/
def lazyValue : List Char → List Char × List Char
  | [] => ([], [])
  | c :: rest =>
      if lookaheadEntry (c :: rest) then ([], c :: rest)
      else
        let r := lazyValue rest
        (c :: r.1, r.2)

/-- Python `str.strip()`. -/
def pyStrip (s : String) : String :=
  String.mk (((s.toList.dropWhile pyWsChar).reverse.dropWhile pyWsChar).reverse)

/-- Attempted match of `(\w+)\s+=\s+(.*?)(?=\n\w+\s+=|\Z)` (DOTALL)
anchored at the start, returning key, raw captured value and the rest of
the input after the match. -/
def matchOutputEntryAt (cs : List Char) :
    Option (String × String × List Char) := do
  let run ← takeWhile1 isWordChar cs
  let cs1 ← matchWs1 run.2
  let cs2 ← matchLit ['='] cs1
  let cs3 ← matchWs1 cs2
  let r := lazyValue cs3
  pure (String.mk run.1, String.mk r.1, r.2)

/-- `re.finditer` over the per-output pattern, folding the stripped
key/value pairs into the `output_values` dict. Fuel as in `findAllRes`. -/
def scanOutputEntries : Nat → List Char → List (String × String) →
    List (String × String)
  | 0, _, acc => acc
  | _, [], acc => acc
  | Nat.succ fuel, c :: rest, acc =>
      match matchOutputEntryAt (c :: rest) with
      | some r =>
          scanOutputEntries fuel r.2.2
            (strDictInsert (pyStrip r.1) (pyStrip r.2.1) acc)
      | none => scanOutputEntries fuel rest acc

/-- Model of `TerraformExecutor._parse_terraform_output_values`. -/
def parseOutputValues (stdout : String) : List (String × String) :=
  match afterFirstSub "Outputs:".toList stdout.toList with
  | none => []
  | some tailCs =>
      let sectionCs := takeUntilBlankLine tailCs
      scanOutputEntries sectionCs.length sectionCs []

def creationWord : String := "Creation complete"

def destructionWord : String := "Destruction complete"

/-- Model of `TerraformExecutor._parse_terraform_output`: the base dict
always carries the raw streams and an empty resources list; the
command-specific fields are added only when their pattern matched
(`if output_values:`, `if instance_id:`, `if ip_address:` are Python
truthiness checks, so empty parses add nothing). -/
def parseTerraformOutput (stdout stderr command : String) : JDict :=
  let base : JDict :=
    [("stdout", JValue.jStr stdout), ("stderr", JValue.jStr stderr),
     ("resources", JValue.jArr [])]
  if command = "apply" then
    let r1 := dictInsert "created_resources"
      (JValue.jArr ((findAllResources creationWord stdout).map JValue.jStr)) base
    let r2 :=
      match parseOutputValues stdout with
      | [] => r1
      | vs => dictInsert "output_values"
          (JValue.jObj (vs.map (fun kv => (kv.1, JValue.jStr kv.2)))) r1
    let r3 :=
      match parseInstanceId stdout with
      | some iid => dictInsert "instance_id" (JValue.jStr iid) r2
      | none => r2
    match parseIpAddress stdout with
    | [] => r3
    | ips => dictInsert "ip_address"
        (JValue.jObj (ips.map (fun kv => (kv.1, JValue.jStr kv.2)))) r3
  else if command = "destroy" then
    dictInsert "destroyed_resources"
      (JValue.jArr ((findAllResources destructionWord stdout).map JValue.jStr)) base
  else base

/-!
Process execution and orchestration model (TerraformExecutor.execute,
TerraformManager). The child process itself is external: its outcome is an
input of the model, either a spawn/communication exception or exit code
plus captured streams.
-/

structure ProcOut where
  returncode : Int
  stdout : String
  stderr : String

abbrev EnvMap := List (String × String)

/-- Model of `env[k] = v` on the copied `os.environ` dict. -/
def envSet (env : EnvMap) (k v : String) : EnvMap :=
  strDictInsert k v env

def envLookup (env : EnvMap) (k : String) : Option String :=
  strDictGet env k

/-- Model of the environment overlay of `TerraformExecutor.execute`:
`env = os.environ.copy()`, then `env["TF_VAR_" + key] = str(value)` for
every variable; a falsy (absent or empty) varsMap map adds nothing. -/
def buildEnv (baseEnv : EnvMap) (varsMap : Option JDict) : EnvMap :=
  match varsMap with
  | none => baseEnv
  | some vs =>
      if vs.isEmpty then baseEnv
      else vs.foldl (fun e kv => envSet e ("TF_VAR_" ++ kv.1) (pyStr kv.2)) baseEnv

/-- Model of the command-line selection of `TerraformExecutor.execute`. -/
def terraformCmd (command : String) : List String :=
  if command = "apply" then ["terraform", "apply", "-auto-approve"]
  else if command = "destroy" then ["terraform", "destroy", "-auto-approve"]
  else if command = "plan" then ["terraform", "plan"]
  else if command = "init" then ["terraform", "init"]
  else ["terraform", command]

/-- The parameters dict recorded by `TerraformExecutor.execute` at event
creation: the varsMap snapshot is masked when truthy, `None` otherwise. -/
def executeParams (command workingDir : String) (varsMap : Option JDict) :
    JDict :=
  [("command", JValue.jStr command),
   ("working_dir", JValue.jStr workingDir),
   ("variables",
     match varsMap with
     | some vs => if vs.isEmpty then JValue.jNull else JValue.jObj (maskFields vs)
     | none => JValue.jNull)]

/-- One run of `TerraformExecutor.execute`. `procOutcome` is the external
process behaviour: `Except.error e` models `subprocess.Popen`/`communicate`
raising `e` (caught by the except branch, which finalizes the event FAILED
with `str(e)` and re-raises), `Except.ok p` models a spawned process that
exited with `p`. Store commits are modelled as succeeding. Returns the
final store, the status sequence written for the created event, the child
environment, and the `(success, result)` pair or the re-raised error. -/
def executeModel (store0 : EventStore) (userId : Int)
    (vmId credentialId : Option Int) (command workingDir : String)
    (varsMap : Option JDict) (eventType : String) (baseEnv : EnvMap)
    (procOutcome : Except PyErr ProcOut) (startT endT : ℚ) :
    EventStore × List String × EnvMap × Except PyErr (Bool × JDict) :=
  let created := createEvent store0 eventType (some userId) vmId credentialId
    (some (executeParams command workingDir varsMap)) none none
    "initiated" none
  let store1 := created.1
  let evId := created.2
  let store2 := updateEventOk store1 evId none none (some "provisioning") none
  let env := buildEnv baseEnv varsMap
  match procOutcome with
  | Except.error e =>
      let duration := endT - startT
      let store3 := updateEventOk store2 evId none (some (pyErrStr e))
        (some "failed") (some duration)
      (store3, ["initiated", "provisioning", "failed"], env, Except.error e)
  | Except.ok proc =>
      let success := proc.returncode = 0
      let result := parseTerraformOutput proc.stdout proc.stderr command
      let duration := endT - startT
      if success then
        let store3 := updateEventOk store2 evId (some result) none
          (some "completed") (some duration)
        (store3, ["initiated", "provisioning", "completed"], env,
         Except.ok (true, result))
      else
        let store3 := updateEventOk store2 evId (some result)
          (some proc.stderr) (some "failed") (some duration)
        (store3, ["initiated", "provisioning", "failed"], env,
         Except.ok (false, result))

/-!
Workspace manager model (app/vm/terraform_manager.py). The filesystem is
abstracted: provider template files are a list of (filename, content)
pairs, the fresh working directory name is an input, and the workspace
produced by `_create_vars_file` records what was materialized into it.
-/

structure Workspace where
  workDir : String
  copiedTemplates : List (String × String)
  tfvarsContent : JDict

/-- Model of `TerraformManager._create_vars_file`: every provider file
ending in ".tf" is copied into the fresh working directory with its
content unmodified, then `terraform.tfvars.json` is written as the JSON
dump of the whole `vars_data` dict. -/
def createVarsFile (providerTemplates : List (String × String))
    (varsData : JDict) (workDir : String) : Workspace :=
  { workDir := workDir,
    copiedTemplates :=
      (providerTemplates.filter (fun f => f.1.endsWith ".tf")).map
        (fun f => (f.1, f.2)),
    tfvarsContent := varsData }

/-- The `vars_data` dict built by `TerraformManager.apply_aws` from the
caller's varsMap map (`varsMap.get(...)` with the source defaults). -/
def applyAwsVars (varsMap : JDict) : JDict :=
  [("access_key", (pyGet varsMap "aws_access_key").getD JValue.jNull),
   ("secret_key", (pyGet varsMap "aws_secret_key").getD JValue.jNull),
   ("region", (pyGet varsMap "region").getD (JValue.jStr "us-east-1")),
   ("name", (pyGet varsMap "name").getD JValue.jNull),
   ("instance_type",
     (pyGet varsMap "instance_type").getD (JValue.jStr "t2.micro")),
   ("ami_id",
     (pyGet varsMap "ami_id").getD (JValue.jStr "ami-0c55b159cbfafe1f0")),
   ("key_name", (pyGet varsMap "key_name").getD JValue.jNull),
   ("security_group_ids",
     (pyGet varsMap "security_group_ids").getD (JValue.jArr []))]

structure ApplyAwsOutcome where
  workspace : Workspace
  events : EventStore
  statuses : List String
  env : EnvMap
  ret : Except PyErr JDict

/-- Model of the tracked branch of `TerraformManager.apply_aws` (db and
user id present): build `vars_data`, materialize the workspace, run the
executor with `vars_data` as the varsMap, then raise on failure or
format the instance facts. Directory cleanup is disabled in the source
(commented out), so the workspace is returned as materialized. -/
def applyAwsModel (providerTemplates : List (String × String))
    (workDir workspaceName : String) (varsMap : JDict)
    (store0 : EventStore) (userId : Int) (vmId : Option Int)
    (baseEnv : EnvMap) (procOutcome : Except PyErr ProcOut)
    (startT endT : ℚ) : ApplyAwsOutcome :=
  let varsData := applyAwsVars varsMap
  let ws := createVarsFile providerTemplates varsData workDir
  let r := executeModel store0 userId vmId none "apply" workDir
    (some varsData) "vm_create" baseEnv procOutcome startT endT
  match r.2.2.2 with
  | Except.error e =>
      { workspace := ws, events := r.1, statuses := r.2.1, env := r.2.2.1,
        ret := Except.error e }
  | Except.ok sr =>
      if sr.1 then
        { workspace := ws, events := r.1, statuses := r.2.1, env := r.2.2.1,
          ret := Except.ok
            [("instance_id", (pyGet sr.2 "instance_id").getD JValue.jNull),
             ("public_ip",
               (match pyGet sr.2 "ip_address" with
                | some (JValue.jObj ipd) => (pyGet ipd "public_ip").getD JValue.jNull
                | _ => JValue.jNull)),
             ("private_ip",
               (match pyGet sr.2 "ip_address" with
                | some (JValue.jObj ipd) => (pyGet ipd "private_ip").getD JValue.jNull
                | _ => JValue.jNull)),
             ("status", JValue.jStr "running")] }
      else
        { workspace := ws, events := r.1, statuses := r.2.1, env := r.2.2.1,
          ret := Except.error (PyErr.exception
            ("Terraform apply gagal: " ++
              pyStr ((pyGet sr.2 "stderr").getD JValue.jNull))) }

/-- Model of `os.path.join` for the relative path fragments at hand. -/
def pathJoin (a b : String) : String := a ++ "/" ++ b

/-- Python truthiness of the `db and user_id` guard: the tracked branch is
taken only when a session is present and `user_id` is nonzero. -/
def trackedBranch (db : Bool) (userId : Option Int) : Bool :=
  db && (match userId with
         | some u => u ≠ 0
         | none => false)

/-- Model of `TerraformManager.destroy_aws`. `existingDirs` is the set of
directories present on disk (`os.path.exists`); `initOutcome` and
`procOutcome` are the external `terraform init`/`terraform destroy`
behaviours of the untracked branch (`subprocess.run(check=True)` raises
`CalledProcessError` on a nonzero exit). -/
def destroyAwsModel (terraformDir workspaceName : String)
    (existingDirs : List String) (store0 : EventStore) (db : Bool)
    (userId : Option Int) (vmId : Option Int) (baseEnv : EnvMap)
    (initOutcome procOutcome : Except PyErr ProcOut) (startT endT : ℚ) :
    EventStore × Except PyErr JDict :=
  let workspaceDir := pathJoin (pathJoin terraformDir "workspaces") workspaceName
  if !(existingDirs.contains workspaceDir) then
    (store0, Except.error (PyErr.exception
      ("Workspace " ++ workspaceName ++ " tidak ditemukan")))
  else if trackedBranch db userId then
    let uid := userId.getD 0
    let r := executeModel store0 uid vmId none "destroy" workspaceDir none
      "vm_delete" baseEnv procOutcome startT endT
    match r.2.2.2 with
    | Except.error e => (r.1, Except.error e)
    | Except.ok sr =>
        if sr.1 then (r.1, Except.ok [("status", JValue.jStr "destroyed")])
        else
          (r.1, Except.error (PyErr.exception
            ("Terraform destroy gagal: " ++
              pyStr ((pyGet sr.2 "stderr").getD JValue.jNull))))
  else
    match initOutcome with
    | Except.error e => (store0, Except.error e)
    | Except.ok ip =>
        if ip.returncode ≠ 0 then
          (store0, Except.error (PyErr.calledProcessError ip.returncode))
        else
          match procOutcome with
          | Except.error e => (store0, Except.error e)
          | Except.ok dp =>
              if dp.returncode ≠ 0 then
                (store0, Except.error (PyErr.calledProcessError dp.returncode))
              else (store0, Except.ok [("status", JValue.jStr "destroyed")])

/-- Model of `TerraformManager.destroy_gcp`; its body is identical to
`destroy_aws` apart from living on the GCP path. -/
def destroyGcpModel (terraformDir workspaceName : String)
    (existingDirs : List String) (store0 : EventStore) (db : Bool)
    (userId : Option Int) (vmId : Option Int) (baseEnv : EnvMap)
    (initOutcome procOutcome : Except PyErr ProcOut) (startT endT : ℚ) :
    EventStore × Except PyErr JDict :=
  let workspaceDir := pathJoin (pathJoin terraformDir "workspaces") workspaceName
  if !(existingDirs.contains workspaceDir) then
    (store0, Except.error (PyErr.exception
      ("Workspace " ++ workspaceName ++ " tidak ditemukan")))
  else if trackedBranch db userId then
    let uid := userId.getD 0
    let r := executeModel store0 uid vmId none "destroy" workspaceDir none
      "vm_delete" baseEnv procOutcome startT endT
    match r.2.2.2 with
    | Except.error e => (r.1, Except.error e)
    | Except.ok sr =>
        if sr.1 then (r.1, Except.ok [("status", JValue.jStr "destroyed")])
        else
          (r.1, Except.error (PyErr.exception
            ("Terraform destroy gagal: " ++
              pyStr ((pyGet sr.2 "stderr").getD JValue.jNull))))
  else
    match initOutcome with
    | Except.error e => (store0, Except.error e)
    | Except.ok ip =>
        if ip.returncode ≠ 0 then
          (store0, Except.error (PyErr.calledProcessError ip.returncode))
        else
          match procOutcome with
          | Except.error e => (store0, Except.error e)
          | Except.ok dp =>
              if dp.returncode ≠ 0 then
                (store0, Except.error (PyErr.calledProcessError dp.returncode))
              else (store0, Except.ok [("status", JValue.jStr "destroyed")])

/-!
Shared lemmas.
-/

theorem maskFields_idem (d : JDict) :
    maskFields (maskFields d) = maskFields d := by
  induction d using maskFields.induct with
  | case1 => simp [maskFields]
  | case2 k fs rest ih1 ih2 => simp [maskFields, ih1, ih2]
  | case3 k s rest ih =>
      by_cases h : isSensitiveKey k <;> simp [maskFields, h, ih]
  | case4 k v rest h1 h2 ih =>
      cases v <;> simp_all [maskFields]

theorem maskFields_keys (d : JDict) :
    (maskFields d).map Prod.fst = d.map Prod.fst := by
  induction d using maskFields.induct with
  | case1 => simp [maskFields]
  | case2 k fs rest ih1 ih2 => simp [maskFields, ih2]
  | case3 k s rest ih =>
      by_cases h : isSensitiveKey k <;> simp [maskFields, h, ih]
  | case4 k v rest h1 h2 ih =>
      cases v <;> simp_all [maskFields]


theorem maskFields_mem_sensitive (d : JDict) (k s : String)
    (hmem : (k, JValue.jStr s) ∈ d) (hsens : isSensitiveKey k = true) :
    (k, JValue.jStr redactionMarker) ∈ maskFields d := by
  induction d using maskFields.induct with
  | case1 => simp at hmem
  | case2 k' fs rest ih1 ih2 =>
      simp only [maskFields]
      rcases List.mem_cons.mp hmem with h | h
      · simp at h
      · exact List.mem_cons_of_mem _ (ih2 h)
  | case3 k' s' rest ih =>
      simp only [maskFields]
      rcases List.mem_cons.mp hmem with h | h
      · simp only [Prod.mk.injEq] at h
        obtain ⟨rfl, -⟩ := h
        simp [hsens]
      · exact List.mem_cons_of_mem _ (ih h)
  | case4 k' v rest h1 h2 ih =>
      rcases List.mem_cons.mp hmem with h | h
      · exact absurd (congrArg Prod.snd h).symm (h2 s)
      · cases v <;> first
          | exact absurd rfl (h1 _)
          | exact absurd rfl (h2 _)
          | (simp only [maskFields]; exact List.mem_cons_of_mem _ (ih h))

theorem maskFields_mem_plain_str (d : JDict) (k s : String)
    (hmem : (k, JValue.jStr s) ∈ d) (hsens : isSensitiveKey k = false) :
    (k, JValue.jStr s) ∈ maskFields d := by
  induction d using maskFields.induct with
  | case1 => simp at hmem
  | case2 k' fs rest ih1 ih2 =>
      simp only [maskFields]
      rcases List.mem_cons.mp hmem with h | h
      · simp at h
      · exact List.mem_cons_of_mem _ (ih2 h)
  | case3 k' s' rest ih =>
      simp only [maskFields]
      rcases List.mem_cons.mp hmem with h | h
      · simp only [Prod.mk.injEq, JValue.jStr.injEq] at h
        obtain ⟨rfl, rfl⟩ := h
        simp [hsens]
      · exact List.mem_cons_of_mem _ (ih h)
  | case4 k' v rest h1 h2 ih =>
      rcases List.mem_cons.mp hmem with h | h
      · exact absurd (congrArg Prod.snd h).symm (h2 s)
      · cases v <;> first
          | exact absurd rfl (h1 _)
          | exact absurd rfl (h2 _)
          | (simp only [maskFields]; exact List.mem_cons_of_mem _ (ih h))

theorem maskFields_mem_obj (d : JDict) (k : String) (fs : JDict)
    (hmem : (k, JValue.jObj fs) ∈ d) :
    (k, JValue.jObj (maskFields fs)) ∈ maskFields d := by
  induction d using maskFields.induct with
  | case1 => simp at hmem
  | case2 k' fs' rest ih1 ih2 =>
      simp only [maskFields]
      rcases List.mem_cons.mp hmem with h | h
      · simp only [Prod.mk.injEq, JValue.jObj.injEq] at h
        obtain ⟨rfl, rfl⟩ := h
        exact List.mem_cons_self _ _
      · exact List.mem_cons_of_mem _ (ih2 h)
  | case3 k' s' rest ih =>
      simp only [maskFields]
      rcases List.mem_cons.mp hmem with h | h
      · simp at h
      · exact List.mem_cons_of_mem _ (ih h)
  | case4 k' v rest h1 h2 ih =>
      rcases List.mem_cons.mp hmem with h | h
      · have hv : JValue.jObj fs = v := congrArg Prod.snd h
        exact absurd hv.symm (h1 fs)
      · cases v <;> first
          | exact absurd rfl (h1 _)
          | exact absurd rfl (h2 _)
          | (simp only [maskFields]; exact List.mem_cons_of_mem _ (ih h))

theorem maskFields_mem_other (d : JDict) (k : String) (v : JValue)
    (hmem : (k, v) ∈ d) (hobj : ∀ fs, v ≠ JValue.jObj fs)
    (hstr : ∀ s, v ≠ JValue.jStr s) : (k, v) ∈ maskFields d := by
  induction d using maskFields.induct with
  | case1 => simp at hmem
  | case2 k' fs' rest ih1 ih2 =>
      simp only [maskFields]
      rcases List.mem_cons.mp hmem with h | h
      · exact absurd (congrArg Prod.snd h) (hobj fs')
      · exact List.mem_cons_of_mem _ (ih2 h)
  | case3 k' s' rest ih =>
      simp only [maskFields]
      rcases List.mem_cons.mp hmem with h | h
      · exact absurd (congrArg Prod.snd h) (hstr s')
      · exact List.mem_cons_of_mem _ (ih h)
  | case4 k' v' rest h1 h2 ih =>
      rcases List.mem_cons.mp hmem with h | h
      · obtain ⟨rfl, rfl⟩ := Prod.mk.injEq .. ▸ h
        cases v <;> first
          | exact absurd rfl (h1 _)
          | exact absurd rfl (h2 _)
          | (simp only [maskFields]; exact List.mem_cons_self _ _)
      · cases v' <;> first
          | exact absurd rfl (h1 _)
          | exact absurd rfl (h2 _)
          | (simp only [maskFields]; exact List.mem_cons_of_mem _ (ih h))

theorem ensureObj_keys (fs : JDict) :
    (ensureObj fs).map Prod.fst = fs.map Prod.fst := by
  induction fs with
  | nil => simp [ensureObj]
  | cons hd tl ih =>
      obtain ⟨k, v⟩ := hd
      simp [ensureObj, ih]

theorem updateEvent_append_fresh (store : EventStore) (ev : Event)
    (hfresh : ∀ e ∈ store, e.id ≠ ev.id) (result : Option JDict)
    (errorMessage : Option String) (status : Option String)
    (duration : Option ℚ) :
    updateEvent (store ++ [ev]) ev.id result errorMessage status duration none
      = Except.ok
          (store ++ [applyEventUpdate ev result errorMessage status duration]) := by
  have hany : ((store ++ [ev]).any (fun e => e.id = ev.id)) = true := by
    simp [List.any_append]
  have h1 : store.map (fun e =>
      if e.id = ev.id then applyEventUpdate e result errorMessage status duration
      else e) = store := by
    refine (List.map_congr_left fun e he => ?_).trans (List.map_id store)
    simp [hfresh e he]
  simp only [updateEvent, hany, if_true, List.map_append, h1, List.map_cons,
    List.map_nil, if_pos]

theorem updateEvent_append_fail (store : EventStore) (ev : Event)
    (m : String) (result : Option JDict) (errorMessage : Option String)
    (status : Option String) (duration : Option ℚ) :
    updateEvent (store ++ [ev]) ev.id result errorMessage status duration
      (some m)
      = Except.error (PyErr.valueError ("Error updating event: " ++ m)) := by
  have hany : ((store ++ [ev]).any (fun e => e.id = ev.id)) = true := by
    simp [List.any_append]
  simp only [updateEvent, hany, if_true]

theorem updateEventOk_append (store : EventStore) (ev : Event)
    (hfresh : ∀ e ∈ store, e.id ≠ ev.id) (result : Option JDict)
    (errorMessage : Option String) (status : Option String)
    (duration : Option ℚ) :
    updateEventOk (store ++ [ev]) ev.id result errorMessage status duration
      = store ++ [applyEventUpdate ev result errorMessage status duration] := by
  unfold updateEventOk
  rw [updateEvent_append_fresh store ev hfresh]

theorem storeGet_append_fresh (store : EventStore) (ev : Event)
    (hfresh : ∀ e ∈ store, e.id ≠ ev.id) :
    storeGet (store ++ [ev]) ev.id = some ev := by
  unfold storeGet
  rw [List.find?_append]
  have h1 : store.find? (fun e => e.id = ev.id) = none := by
    rw [List.find?_eq_none]
    intro e he
    simp [hfresh e he]
  simp [h1]

theorem count_append_fresh (store : EventStore) (ev : Event)
    (hfresh : ∀ e ∈ store, e.id ≠ ev.id) :
    ((store ++ [ev]).filter (fun e => e.id = ev.id)).length = 1 := by
  rw [List.filter_append]
  have h1 : store.filter (fun e => e.id = ev.id) = [] := by
    rw [List.filter_eq_nil]
    intro e he
    simp [hfresh e he]
  simp [h1]

theorem applyEventUpdate_id (e : Event) (result : Option JDict)
    (errorMessage : Option String) (status : Option String)
    (duration : Option ℚ) :
    (applyEventUpdate e result errorMessage status duration).id = e.id := rfl

theorem updateEvent_append_fresh_at (store : EventStore) (ev : Event)
    (n : Nat) (hn : ev.id = n) (hfresh : ∀ e ∈ store, e.id ≠ n)
    (result : Option JDict) (errorMessage : Option String)
    (status : Option String) (duration : Option ℚ) :
    updateEvent (store ++ [ev]) n result errorMessage status duration none
      = Except.ok
          (store ++ [applyEventUpdate ev result errorMessage status duration]) := by
  subst hn
  exact updateEvent_append_fresh store ev hfresh result errorMessage status duration

theorem updateEvent_append_fail_at (store : EventStore) (ev : Event)
    (n : Nat) (hn : ev.id = n) (m : String) (result : Option JDict)
    (errorMessage : Option String) (status : Option String)
    (duration : Option ℚ) :
    updateEvent (store ++ [ev]) n result errorMessage status duration (some m)
      = Except.error (PyErr.valueError ("Error updating event: " ++ m)) := by
  subst hn
  exact updateEvent_append_fail store ev m result errorMessage status duration

theorem updateEventOk_append_at (store : EventStore) (ev : Event)
    (n : Nat) (hn : ev.id = n) (hfresh : ∀ e ∈ store, e.id ≠ n)
    (result : Option JDict) (errorMessage : Option String)
    (status : Option String) (duration : Option ℚ) :
    updateEventOk (store ++ [ev]) n result errorMessage status duration
      = store ++ [applyEventUpdate ev result errorMessage status duration] := by
  subst hn
  exact updateEventOk_append store ev hfresh result errorMessage status duration

/-- The event row created by `HistoryTracker.__call__` before the wrapped
call runs. -/
def trackerCreatedEvent (cfg : TrackerConfig) (params : JDict)
    (store0 : EventStore) : Event :=
  let filtered := params.filter (fun kv => !(decide (kv.1 ∈ cfg.excludeParams)))
  { id := store0.length, eventType := cfg.eventType,
    status := cfg.initialStatus,
    userId := getParamValue cfg.getUserId params,
    vmId := getParamValue cfg.getVmId params,
    credentialId := getParamValue cfg.getCredentialId params,
    parameters := some (if filtered.isEmpty then filtered else ensureObj filtered),
    result := none, errorMessage := none, duration := none }

theorem trackerRun_ok_none (cfg : TrackerConfig) (params : JDict)
    (store0 : EventStore) (v : JValue) (startT endT : ℚ)
    (hfresh : ∀ e ∈ store0, e.id ≠ store0.length) :
    trackerRun cfg params store0 (Except.ok v) startT endT none
      = (store0 ++ [applyEventUpdate (trackerCreatedEvent cfg params store0)
            (prepareResultData v) none (some cfg.successStatus)
            (some (endT - startT))],
         [cfg.initialStatus, cfg.successStatus], Except.ok v) := by
  simp only [trackerRun, createEvent]
  rw [updateEvent_append_fresh_at _ _ _ rfl hfresh]
  rfl

theorem trackerRun_err_none (cfg : TrackerConfig) (params : JDict)
    (store0 : EventStore) (e : PyErr) (startT endT : ℚ)
    (hfresh : ∀ e' ∈ store0, e'.id ≠ store0.length) :
    trackerRun cfg params store0 (Except.error e) startT endT none
      = (store0 ++ [applyEventUpdate (trackerCreatedEvent cfg params store0)
            none (some (pyErrStr e)) (some cfg.errorStatus)
            (some (endT - startT))],
         [cfg.initialStatus, cfg.errorStatus], Except.error e) := by
  simp only [trackerRun, createEvent]
  rw [updateEvent_append_fresh_at _ _ _ rfl hfresh]
  rfl

theorem trackerRun_err_fail (cfg : TrackerConfig) (params : JDict)
    (store0 : EventStore) (e : PyErr) (startT endT : ℚ) (m : String) :
    trackerRun cfg params store0 (Except.error e) startT endT (some m)
      = (store0 ++ [trackerCreatedEvent cfg params store0],
         [cfg.initialStatus],
         Except.error (PyErr.valueError ("Error updating event: " ++ m))) := by
  simp only [trackerRun, createEvent]
  rw [updateEvent_append_fail_at _ _ _ rfl]
  rfl

theorem trackerRun_ok_fail (cfg : TrackerConfig) (params : JDict)
    (store0 : EventStore) (v : JValue) (startT endT : ℚ) (m : String) :
    trackerRun cfg params store0 (Except.ok v) startT endT (some m)
      = (store0 ++ [trackerCreatedEvent cfg params store0],
         [cfg.initialStatus],
         Except.error (PyErr.valueError ("Error updating event: " ++ m))) := by
  simp [trackerRun, createEvent, updateEvent, trackerCreatedEvent,
    List.any_append]

theorem terraformTrackerRun_ok_none (cfg : TrackerConfig) (params : JDict)
    (store0 : EventStore) (v : JValue) (startT endT : ℚ)
    (hfresh : ∀ e ∈ store0, e.id ≠ store0.length) :
    terraformTrackerRun cfg params store0 (Except.ok v) startT endT none
      = (store0 ++ [applyEventUpdate
            (applyEventUpdate (trackerCreatedEvent cfg params store0)
              none none (some "provisioning") none)
            (prepareResultData v) none (some cfg.successStatus)
            (some (endT - startT))],
         [cfg.initialStatus, "provisioning", cfg.successStatus],
         Except.ok v) := by
  have hmap : ∀ (r : Option JDict) (m : Option String) (st : Option String)
      (d : Option ℚ),
      store0.map (fun e =>
        if e.id = store0.length then applyEventUpdate e r m st d else e)
        = store0 := by
    intro r m st d
    refine (List.map_congr_left fun e he => ?_).trans (List.map_id store0)
    simp [hfresh e he]
  simp [terraformTrackerRun, createEvent, updateEvent, trackerCreatedEvent,
    List.any_append, hmap, applyEventUpdate_id]

theorem terraformTrackerRun_err_none (cfg : TrackerConfig) (params : JDict)
    (store0 : EventStore) (e : PyErr) (startT endT : ℚ)
    (hfresh : ∀ e' ∈ store0, e'.id ≠ store0.length) :
    terraformTrackerRun cfg params store0 (Except.error e) startT endT none
      = (store0 ++ [applyEventUpdate
            (applyEventUpdate (trackerCreatedEvent cfg params store0)
              none none (some "provisioning") none)
            none (some (pyErrStr e)) (some cfg.errorStatus)
            (some (endT - startT))],
         [cfg.initialStatus, "provisioning", cfg.errorStatus],
         Except.error e) := by
  have hmap : ∀ (r : Option JDict) (m : Option String) (st : Option String)
      (d : Option ℚ),
      store0.map (fun e' =>
        if e'.id = store0.length then applyEventUpdate e' r m st d else e')
        = store0 := by
    intro r m st d
    refine (List.map_congr_left fun e' he => ?_).trans (List.map_id store0)
    simp [hfresh e' he]
  simp [terraformTrackerRun, createEvent, updateEvent, trackerCreatedEvent,
    List.any_append, hmap, applyEventUpdate_id]

/-- The event row of one `TerraformExecutor.execute` run after its final
update: created INITIATED with the masked parameters snapshot, then
updated to the given terminal state. -/
def executeFinalEvent (store0 : EventStore) (userId : Int)
    (vmId credentialId : Option Int) (command workingDir : String)
    (varsMap : Option JDict) (eventType status : String)
    (result : Option JDict) (errorMessage : Option String)
    (duration : ℚ) : Event :=
  { id := store0.length, eventType := eventType, status := status,
    userId := some userId, vmId := vmId, credentialId := credentialId,
    parameters := some (ensureObj (executeParams command workingDir varsMap)),
    result := result, errorMessage := errorMessage,
    duration := some duration }

theorem executeModel_spawn_err (store0 : EventStore) (userId : Int)
    (vmId credentialId : Option Int) (command workingDir : String)
    (varsMap : Option JDict) (eventType : String) (baseEnv : EnvMap)
    (e : PyErr) (startT endT : ℚ)
    (hfresh : ∀ e' ∈ store0, e'.id ≠ store0.length) :
    executeModel store0 userId vmId credentialId command workingDir varsMap
        eventType baseEnv (Except.error e) startT endT
      = (store0 ++ [executeFinalEvent store0 userId vmId credentialId command
            workingDir varsMap eventType "failed" none (some (pyErrStr e))
            (endT - startT)],
         ["initiated", "provisioning", "failed"], buildEnv baseEnv varsMap,
         Except.error e) := by
  simp only [executeModel, createEvent]
  rw [updateEventOk_append_at _ _ _ rfl hfresh]
  rw [updateEventOk_append_at _ _ _ (by rfl) hfresh]
  rfl

theorem executeModel_exit_ok (store0 : EventStore) (userId : Int)
    (vmId credentialId : Option Int) (command workingDir : String)
    (varsMap : Option JDict) (eventType : String) (baseEnv : EnvMap)
    (proc : ProcOut) (startT endT : ℚ) (hrc : proc.returncode = 0)
    (hfresh : ∀ e' ∈ store0, e'.id ≠ store0.length) :
    executeModel store0 userId vmId credentialId command workingDir varsMap
        eventType baseEnv (Except.ok proc) startT endT
      = (store0 ++ [executeFinalEvent store0 userId vmId credentialId command
            workingDir varsMap eventType "completed"
            (some (ensureObj (parseTerraformOutput proc.stdout proc.stderr command)))
            none (endT - startT)],
         ["initiated", "provisioning", "completed"], buildEnv baseEnv varsMap,
         Except.ok (true, parseTerraformOutput proc.stdout proc.stderr command))
      := by
  simp only [executeModel, createEvent]
  rw [updateEventOk_append_at _ _ _ rfl hfresh]
  rw [if_pos hrc]
  rw [updateEventOk_append_at _ _ _ (by rfl) hfresh]
  rfl

theorem executeModel_exit_fail (store0 : EventStore) (userId : Int)
    (vmId credentialId : Option Int) (command workingDir : String)
    (varsMap : Option JDict) (eventType : String) (baseEnv : EnvMap)
    (proc : ProcOut) (startT endT : ℚ) (hrc : ¬ proc.returncode = 0)
    (hfresh : ∀ e' ∈ store0, e'.id ≠ store0.length) :
    executeModel store0 userId vmId credentialId command workingDir varsMap
        eventType baseEnv (Except.ok proc) startT endT
      = (store0 ++ [executeFinalEvent store0 userId vmId credentialId command
            workingDir varsMap eventType "failed"
            (some (ensureObj (parseTerraformOutput proc.stdout proc.stderr command)))
            (some proc.stderr) (endT - startT)],
         ["initiated", "provisioning", "failed"], buildEnv baseEnv varsMap,
         Except.ok (false, parseTerraformOutput proc.stdout proc.stderr command))
      := by
  simp only [executeModel, createEvent]
  rw [updateEventOk_append_at _ _ _ rfl hfresh]
  rw [if_neg hrc]
  rw [updateEventOk_append_at _ _ _ (by rfl) hfresh]
  rfl

theorem storeGet_append_at (store : EventStore) (ev : Event) (n : Nat)
    (hn : ev.id = n) (hfresh : ∀ e ∈ store, e.id ≠ n) :
    storeGet (store ++ [ev]) n = some ev := by
  subst hn
  exact storeGet_append_fresh store ev hfresh

theorem count_append_at (store : EventStore) (ev : Event) (n : Nat)
    (hn : ev.id = n) (hfresh : ∀ e ∈ store, e.id ≠ n) :
    ((store ++ [ev]).filter (fun e => e.id = n)).length = 1 := by
  subst hn
  exact count_append_fresh store ev hfresh

/-- The universal run of `TerraformTracker.__call__` when every store
commit fails: the provisioning update raises, the except-branch update
raises again, and the caller sees the update error with the event left in
its creation state. -/
theorem terraformTrackerRun_fail (cfg : TrackerConfig) (params : JDict)
    (store0 : EventStore) (op : Except PyErr JValue) (startT endT : ℚ)
    (m : String) :
    terraformTrackerRun cfg params store0 op startT endT (some m)
      = (store0 ++ [trackerCreatedEvent cfg params store0],
         [cfg.initialStatus],
         Except.error (PyErr.valueError ("Error updating event: " ++ m))) := by
  simp [terraformTrackerRun, createEvent, updateEvent, trackerCreatedEvent,
    List.any_append]

/-!
C7 block.
-/

/-- C7: `_mask_sensitive_data` is a pure function that is idempotent,
preserves the key structure (same-shaped output), masks nested mappings
recursively, replaces string values under case-insensitively sensitive
keys with the fixed redaction marker, and passes every
non-mapping/non-string leaf value through unchanged. -/
theorem c7_mask_properties :
    (∀ d : JDict, maskFields (maskFields d) = maskFields d)
    ∧ (∀ d : JDict, (maskFields d).map Prod.fst = d.map Prod.fst)
    ∧ (∀ (d : JDict) (k s : String), (k, JValue.jStr s) ∈ d →
        isSensitiveKey k = true →
        (k, JValue.jStr redactionMarker) ∈ maskFields d)
    ∧ (∀ (d : JDict) (k s : String), (k, JValue.jStr s) ∈ d →
        isSensitiveKey k = false → (k, JValue.jStr s) ∈ maskFields d)
    ∧ (∀ (d : JDict) (k : String) (fs : JDict), (k, JValue.jObj fs) ∈ d →
        (k, JValue.jObj (maskFields fs)) ∈ maskFields d)
    ∧ (∀ (d : JDict) (k : String) (v : JValue), (k, v) ∈ d →
        (∀ fs, v ≠ JValue.jObj fs) → (∀ s, v ≠ JValue.jStr s) →
        (k, v) ∈ maskFields d) :=
  ⟨maskFields_idem, maskFields_keys, maskFields_mem_sensitive,
   maskFields_mem_plain_str, maskFields_mem_obj, maskFields_mem_other⟩

def c7demo : JDict :=
  [("aws_secret_key", JValue.jStr "hunter2"),
   ("region", JValue.jStr "us-east-1"),
   ("cpu_cores", JValue.jNum 2)]

/-- Witness for C7 at a concrete nested structure. -/
theorem c7_witness :
    maskFields (maskFields c7demo) = maskFields c7demo
    ∧ ("aws_secret_key", JValue.jStr redactionMarker) ∈ maskFields c7demo
    ∧ ("region", JValue.jStr "us-east-1") ∈ maskFields c7demo
    ∧ ("cpu_cores", JValue.jNum 2) ∈ maskFields c7demo := by
  refine ⟨c7_mask_properties.1 c7demo, ?_, ?_, ?_⟩
  · exact c7_mask_properties.2.2.1 c7demo "aws_secret_key" "hunter2"
      (by simp [c7demo]) rfl
  · exact c7_mask_properties.2.2.2.1 c7demo "region" "us-east-1"
      (by simp [c7demo]) rfl
  · exact c7_mask_properties.2.2.2.2.2 c7demo "cpu_cores" (JValue.jNum 2)
      (by simp [c7demo]) (fun fs h => JValue.noConfusion h)
      (fun s h => JValue.noConfusion h)

theorem applyEventUpdate_params (e : Event) (result : Option JDict)
    (errorMessage : Option String) (status : Option String)
    (duration : Option ℚ) :
    (applyEventUpdate e result errorMessage status duration).parameters
      = e.parameters := rfl

theorem trackerCreatedEvent_params_not_mem (cfg : TrackerConfig)
    (params : JDict) (store0 : EventStore) (k : String)
    (hk : k ∈ cfg.excludeParams) (pd : JDict)
    (hpd : (trackerCreatedEvent cfg params store0).parameters = some pd) :
    k ∉ pd.map Prod.fst := by
  simp only [trackerCreatedEvent, Option.some.injEq] at hpd
  subst hpd
  intro hmem
  have hmem' : k ∈ (params.filter
      (fun kv => !(decide (kv.1 ∈ cfg.excludeParams)))).map Prod.fst := by
    by_cases hf : (params.filter
        (fun kv => !(decide (kv.1 ∈ cfg.excludeParams)))).isEmpty
    · simpa [hf] using hmem
    · rw [if_neg hf, ensureObj_keys] at hmem
      exact hmem
  obtain ⟨kv, hkv, hk1⟩ := List.mem_map.mp hmem'
  have := List.mem_filter.mp hkv
  rw [hk1] at this
  simp [hk] at this

/-!
C6 block.
-/

/-- C6: for every input parameter map and every name in the tracker's
excluded parameter names, that name does not appear as a key of the
parameters stored on the Event created for the operation — for both
`HistoryTracker` and `TerraformTracker` wrappers, for every operation
outcome and every commit behaviour of the finalizing writes. -/
theorem c6_excluded_params (cfg : TrackerConfig) (params : JDict)
    (store0 : EventStore) (op : Except PyErr JValue) (startT endT : ℚ)
    (dbFail : Option String) (k : String) (hk : k ∈ cfg.excludeParams)
    (hfresh : ∀ e ∈ store0, e.id ≠ store0.length) :
    (∀ ev pd,
        storeGet (trackerRun cfg params store0 op startT endT dbFail).1
          store0.length = some ev → ev.parameters = some pd →
        k ∉ pd.map Prod.fst)
    ∧ (∀ ev pd,
        storeGet (terraformTrackerRun cfg params store0 op startT endT
          dbFail).1 store0.length = some ev → ev.parameters = some pd →
        k ∉ pd.map Prod.fst) := by
  constructor
  · intro ev pd hget hpd
    rcases op with e2 | v <;> rcases dbFail with _ | m
    · rw [trackerRun_err_none cfg params store0 e2 startT endT hfresh,
        storeGet_append_at _ _ _ (by rfl) hfresh] at hget
      obtain rfl := Option.some.inj hget
      rw [applyEventUpdate_params] at hpd
      exact trackerCreatedEvent_params_not_mem cfg params store0 k hk pd hpd
    · rw [trackerRun_err_fail cfg params store0 e2 startT endT m,
        storeGet_append_at _ _ _ (by rfl) hfresh] at hget
      obtain rfl := Option.some.inj hget
      exact trackerCreatedEvent_params_not_mem cfg params store0 k hk pd hpd
    · rw [trackerRun_ok_none cfg params store0 v startT endT hfresh,
        storeGet_append_at _ _ _ (by rfl) hfresh] at hget
      obtain rfl := Option.some.inj hget
      rw [applyEventUpdate_params] at hpd
      exact trackerCreatedEvent_params_not_mem cfg params store0 k hk pd hpd
    · rw [trackerRun_ok_fail cfg params store0 v startT endT m,
        storeGet_append_at _ _ _ (by rfl) hfresh] at hget
      obtain rfl := Option.some.inj hget
      exact trackerCreatedEvent_params_not_mem cfg params store0 k hk pd hpd
  · intro ev pd hget hpd
    rcases dbFail with _ | m
    · rcases op with e2 | v
      · rw [terraformTrackerRun_err_none cfg params store0 e2 startT endT hfresh,
          storeGet_append_at _ _ _ (by rfl) hfresh] at hget
        obtain rfl := Option.some.inj hget
        rw [applyEventUpdate_params, applyEventUpdate_params] at hpd
        exact trackerCreatedEvent_params_not_mem cfg params store0 k hk pd hpd
      · rw [terraformTrackerRun_ok_none cfg params store0 v startT endT hfresh,
          storeGet_append_at _ _ _ (by rfl) hfresh] at hget
        obtain rfl := Option.some.inj hget
        rw [applyEventUpdate_params, applyEventUpdate_params] at hpd
        exact trackerCreatedEvent_params_not_mem cfg params store0 k hk pd hpd
    · rw [terraformTrackerRun_fail cfg params store0 op startT endT m,
        storeGet_append_at _ _ _ (by rfl) hfresh] at hget
      obtain rfl := Option.some.inj hget
      exact trackerCreatedEvent_params_not_mem cfg params store0 k hk pd hpd

def c6demoCfg : TrackerConfig :=
  { eventType := "credential_create", getUserId := none, getVmId := none,
    getCredentialId := none, initialStatus := "pending",
    successStatus := "success", errorStatus := "failed",
    excludeParams := ["aws_credentials", "gcp_credentials"] }

def c6demoParams : JDict :=
  [("user_id", JValue.jNum 7),
   ("aws_credentials", JValue.jStr "AKIA:wJalr"),
   ("name", JValue.jStr "creds")]

/-- Witness for C6: a concrete input map containing an excluded name. -/
theorem c6_witness :
    "aws_credentials" ∈ c6demoCfg.excludeParams
    ∧ ("aws_credentials", JValue.jStr "AKIA:wJalr") ∈ c6demoParams
    ∧ (∀ ev pd,
        storeGet (trackerRun c6demoCfg c6demoParams [] (Except.ok JValue.jNull)
          0 1 none).1 0 = some ev → ev.parameters = some pd →
        "aws_credentials" ∉ pd.map Prod.fst) := by
  refine ⟨by simp [c6demoCfg], by simp [c6demoParams], ?_⟩
  have h := c6_excluded_params c6demoCfg c6demoParams []
    (Except.ok JValue.jNull) 0 1 none "aws_credentials"
    (by simp [c6demoCfg]) (by simp)
  simpa using h.1

/-!
C8/C9 block: output-parsing facts.
-/

def c8stdout : String :=
  "Outputs:\n  instance_id = i-0123456789abcdef0\n  public_ip = 10.0.0.5"

/-- C8: parsing the stdout of an apply run that contains the lines
"Outputs:", "instance_id = i-0123456789abcdef0" and
"public_ip = 10.0.0.5" yields instance_id "i-0123456789abcdef0" and
public_ip "10.0.0.5" in the parsed result. -/
theorem c8_parse_demo :
    pyGet (parseTerraformOutput c8stdout "" "apply") "instance_id"
      = some (JValue.jStr "i-0123456789abcdef0")
    ∧ pyGet (parseTerraformOutput c8stdout "" "apply") "ip_address"
      = some (JValue.jObj [("public_ip", JValue.jStr "10.0.0.5")]) :=
  ⟨rfl, rfl⟩

theorem parseTerraformOutput_fields (stdout stderr command : String) :
    pyGet (parseTerraformOutput stdout stderr command) "stdout"
      = some (JValue.jStr stdout)
    ∧ pyGet (parseTerraformOutput stdout stderr command) "stderr"
      = some (JValue.jStr stderr)
    ∧ pyGet (parseTerraformOutput stdout stderr command) "resources"
      = some (JValue.jArr [])
    ∧ (command = "apply" →
        pyGet (parseTerraformOutput stdout stderr command) "instance_id"
          = Option.map JValue.jStr (parseInstanceId stdout)) := by
  unfold parseTerraformOutput
  by_cases hc : command = "apply"
  · subst hc
    rcases h1 : parseOutputValues stdout with _ | ⟨v0, vs⟩ <;>
      rcases h2 : parseInstanceId stdout with _ | iid <;>
        rcases h3 : parseIpAddress stdout with _ | ⟨ip0, ips⟩ <;>
          simp [dictInsert, pyGet, h2]
  · by_cases hd : command = "destroy" <;>
      simp [hc, hd, dictInsert, pyGet]

/-- C9: for every stdout/stderr pair and every command, parsing returns a
well-formed result dict (the model is a total function): the raw streams
and the resources list are always present, and for an apply run the
instance_id field is present exactly when its pattern matched — a missing
token yields a missing field, never a failure. -/
theorem c9_parse_total (stdout stderr command : String) :
    pyGet (parseTerraformOutput stdout stderr command) "stdout"
      = some (JValue.jStr stdout)
    ∧ pyGet (parseTerraformOutput stdout stderr command) "stderr"
      = some (JValue.jStr stderr)
    ∧ pyGet (parseTerraformOutput stdout stderr command) "resources"
      = some (JValue.jArr [])
    ∧ (command = "apply" →
        pyGet (parseTerraformOutput stdout stderr command) "instance_id"
          = Option.map JValue.jStr (parseInstanceId stdout)) :=
  parseTerraformOutput_fields stdout stderr command

/-- Witness for C9 at concrete malformed tool output: the result is still
well-formed and the missing token yields a missing field. -/
theorem c9_witness :
    pyGet (parseTerraformOutput "no outputs here" "oops" "apply") "stdout"
      = some (JValue.jStr "no outputs here")
    ∧ pyGet (parseTerraformOutput "no outputs here" "oops" "apply")
        "instance_id" = none := by
  have h := c9_parse_total "no outputs here" "oops" "apply"
  exact ⟨h.1, by rw [h.2.2.2 rfl]; rfl⟩

/-!
C3 block: error propagation of the tracker.
-/

def c3demoCfg : TrackerConfig :=
  { eventType := "vm_delete", getUserId := none, getVmId := none,
    getCredentialId := none, initialStatus := "pending",
    successStatus := "success", errorStatus := "failed",
    excludeParams := [] }

/-- Counterexample for C3: when the wrapped operation raises
`Exception("boom")` and the finalizing `update_event` commit fails with
"disk full", the caller of the tracked operation sees the update's
`ValueError`, not the original error — the database write failure replaces
the operation error. -/
theorem c3_counterexample :
    (trackerRun c3demoCfg [] [] (Except.error (PyErr.exception "boom")) 0 1
        (some "disk full")).2.2
      = Except.error (PyErr.valueError "Error updating event: disk full")
    ∧ (trackerRun c3demoCfg [] [] (Except.error (PyErr.exception "boom")) 0 1
        (some "disk full")).2.2
      ≠ Except.error (PyErr.exception "boom") := by
  have heval : (trackerRun c3demoCfg [] []
      (Except.error (PyErr.exception "boom")) 0 1 (some "disk full")).2.2
      = Except.error (PyErr.valueError "Error updating event: disk full") := rfl
  refine ⟨heval, ?_⟩
  rw [heval]
  intro h
  exact PyErr.noConfusion (Except.error.inj h)

/-- C3 amended: when every event-store commit succeeds, a failing tracked
operation finalizes its event with the failure status, the error's
message and the duration, and the original error is re-raised unchanged;
but when the finalizing write fails, the `update_event` `ValueError`
replaces the original error seen by the caller and the event stays in its
creation state. -/
theorem c3_tracker_error_propagation (cfg : TrackerConfig) (params : JDict)
    (store0 : EventStore) (e : PyErr) (startT endT : ℚ)
    (hfresh : ∀ e' ∈ store0, e'.id ≠ store0.length) :
    ((trackerRun cfg params store0 (Except.error e) startT endT none).2.2
      = Except.error e)
    ∧ (∃ ev, storeGet (trackerRun cfg params store0 (Except.error e) startT
          endT none).1 store0.length = some ev
        ∧ ev.status = cfg.errorStatus
        ∧ ev.errorMessage = some (pyErrStr e)
        ∧ ev.duration = some (endT - startT))
    ∧ (∀ m, (trackerRun cfg params store0 (Except.error e) startT endT
          (some m)).2.2
        = Except.error (PyErr.valueError ("Error updating event: " ++ m)))
    ∧ (∀ m, (trackerRun cfg params store0 (Except.error e) startT endT
          (some m)).1 = store0 ++ [trackerCreatedEvent cfg params store0]) := by
  refine ⟨?_, ?_, ?_, ?_⟩
  · rw [trackerRun_err_none cfg params store0 e startT endT hfresh]
  · rw [trackerRun_err_none cfg params store0 e startT endT hfresh]
    exact ⟨_, storeGet_append_at _ _ _ (by rfl) hfresh, rfl, rfl, rfl⟩
  · intro m
    rw [trackerRun_err_fail cfg params store0 e startT endT m]
  · intro m
    rw [trackerRun_err_fail cfg params store0 e startT endT m]

/-- Witness for C3's amended theorem at concrete inputs. -/
theorem c3_witness :
    ((trackerRun c3demoCfg [] [] (Except.error (PyErr.exception "boom")) 0 2
        none).2.2 = Except.error (PyErr.exception "boom"))
    ∧ (∃ ev, storeGet (trackerRun c3demoCfg [] []
          (Except.error (PyErr.exception "boom")) 0 2 none).1 0 = some ev
        ∧ ev.status = c3demoCfg.errorStatus
        ∧ ev.errorMessage = some (pyErrStr (PyErr.exception "boom"))
        ∧ ev.duration = some (2 - 0)) := by
  have h := c3_tracker_error_propagation c3demoCfg [] []
    (PyErr.exception "boom") 0 2 (by simp)
  exact ⟨h.1, h.2.1⟩

/-!
C2 block: exactly-one-event, terminal status and duration.
-/

/-- Counterexample for C2: a successful `TerraformExecutor.execute` run
(the tracked terraform operation cited by the claim) finalizes its event
with status "completed" — `TerraformStatus.COMPLETED` — which is neither
`EventStatus.SUCCESS` ("success") nor `EventStatus.FAILED` ("failed"). -/
theorem c2_counterexample :
    (∃ ev, storeGet (executeModel [] 1 none none "apply" "/w" none "vm_create"
        [] (Except.ok { returncode := 0, stdout := "", stderr := "" }) 0 1).1
        0 = some ev
      ∧ ev.status = "completed")
    ∧ ("completed" : String) ≠ "success"
    ∧ ("completed" : String) ≠ "failed" := by
  refine ⟨⟨_, rfl, rfl⟩, by decide, by decide⟩

/-- C2 amended: for every completed invocation (return or raise), with
reliable event-store commits, exactly one Event exists for the invocation
afterwards and its recorded duration equals the wall-clock span (and is
nonnegative when the clock is monotone); the terminal status is in
SUCCESS/FAILED for decorator-tracked operations, while
`TerraformExecutor.execute` runs finalize with COMPLETED on success and
FAILED on failure. -/
theorem c2_one_event_per_invocation (cfg : TrackerConfig) (params : JDict)
    (store0 : EventStore) (op : Except PyErr JValue) (startT endT : ℚ)
    (userId : Int) (vmId credentialId : Option Int)
    (command workingDir : String) (varsMap : Option JDict)
    (eventType : String) (baseEnv : EnvMap)
    (procOutcome : Except PyErr ProcOut)
    (hfresh : ∀ e' ∈ store0, e'.id ≠ store0.length)
    (hstart : startT ≤ endT)
    (hsucc : cfg.successStatus = "success")
    (herr : cfg.errorStatus = "failed") :
    (0 : ℚ) ≤ endT - startT
    ∧ (((trackerRun cfg params store0 op startT endT none).1.filter
          (fun e => e.id = store0.length)).length = 1
        ∧ ∃ ev, storeGet (trackerRun cfg params store0 op startT endT none).1
            store0.length = some ev
          ∧ (ev.status = "success" ∨ ev.status = "failed")
          ∧ ev.duration = some (endT - startT))
    ∧ (((executeModel store0 userId vmId credentialId command workingDir
          varsMap eventType baseEnv procOutcome startT endT).1.filter
          (fun e => e.id = store0.length)).length = 1
        ∧ ∃ ev, storeGet (executeModel store0 userId vmId credentialId command
            workingDir varsMap eventType baseEnv procOutcome startT endT).1
            store0.length = some ev
          ∧ (ev.status = "completed" ∨ ev.status = "failed")
          ∧ ev.duration = some (endT - startT)) := by
  refine ⟨by linarith, ?_, ?_⟩
  · rcases op with e | v
    · rw [trackerRun_err_none cfg params store0 e startT endT hfresh]
      refine ⟨count_append_at _ _ _ (by rfl) hfresh, ?_⟩
      exact ⟨_, storeGet_append_at _ _ _ (by rfl) hfresh,
        Or.inr (by simp [applyEventUpdate, herr]), rfl⟩
    · rw [trackerRun_ok_none cfg params store0 v startT endT hfresh]
      refine ⟨count_append_at _ _ _ (by rfl) hfresh, ?_⟩
      exact ⟨_, storeGet_append_at _ _ _ (by rfl) hfresh,
        Or.inl (by simp [applyEventUpdate, hsucc]), rfl⟩
  · rcases procOutcome with e | proc
    · rw [executeModel_spawn_err store0 userId vmId credentialId command
        workingDir varsMap eventType baseEnv e startT endT hfresh]
      refine ⟨count_append_at _ _ _ (by rfl) hfresh, ?_⟩
      exact ⟨_, storeGet_append_at _ _ _ (by rfl) hfresh, Or.inr rfl, rfl⟩
    · by_cases hrc : proc.returncode = 0
      · rw [executeModel_exit_ok store0 userId vmId credentialId command
          workingDir varsMap eventType baseEnv proc startT endT hrc hfresh]
        refine ⟨count_append_at _ _ _ (by rfl) hfresh, ?_⟩
        exact ⟨_, storeGet_append_at _ _ _ (by rfl) hfresh, Or.inl rfl, rfl⟩
      · rw [executeModel_exit_fail store0 userId vmId credentialId command
          workingDir varsMap eventType baseEnv proc startT endT hrc hfresh]
        refine ⟨count_append_at _ _ _ (by rfl) hfresh, ?_⟩
        exact ⟨_, storeGet_append_at _ _ _ (by rfl) hfresh, Or.inr rfl, rfl⟩

/-- Witness for C2's amended theorem at concrete inputs. -/
theorem c2_witness :
    (0 : ℚ) ≤ 3 - 1
    ∧ (((trackerRun c3demoCfg [] [] (Except.ok JValue.jNull) 1 3 none).1.filter
          (fun e => e.id = 0)).length = 1
        ∧ ∃ ev, storeGet (trackerRun c3demoCfg [] [] (Except.ok JValue.jNull)
            1 3 none).1 0 = some ev
          ∧ (ev.status = "success" ∨ ev.status = "failed")
          ∧ ev.duration = some (3 - 1)) := by
  have h := c2_one_event_per_invocation c3demoCfg [] [] (Except.ok JValue.jNull)
    1 3 1 none none "apply" "/w" none "vm_create" []
    (Except.ok { returncode := 0, stdout := "", stderr := "" })
    (by simp) (by norm_num) rfl rfl
  exact ⟨h.1, by simpa using h.2.1⟩

/-!
C4 block: status sequences.
-/

/-- Order of the status vocabulary: creation statuses, then the
intermediate provisioning status, then terminal statuses. -/
def statusRank (s : String) : Nat :=
  if s = "pending" || s = "initiated" then 0
  else if s = "provisioning" then 1
  else 2

def isTerminalStatus (s : String) : Bool :=
  s = "success" || s = "failed" || s = "completed"

/-- Counterexample for C4: the event of a successful
`TerraformExecutor.execute` run (cited by the claim) receives the status
sequence initiated → provisioning → completed; its first status is not
PENDING and its terminal status is neither SUCCESS nor FAILED. -/
theorem c4_counterexample :
    (executeModel [] 1 none none "apply" "/w" none "vm_create" []
        (Except.ok { returncode := 0, stdout := "", stderr := "" }) 0 1).2.1
      = ["initiated", "provisioning", "completed"]
    ∧ ("initiated" : String) ≠ "pending"
    ∧ ("completed" : String) ≠ "success"
    ∧ ("completed" : String) ≠ "failed" :=
  ⟨rfl, by decide, by decide, by decide⟩

/-- C4 amended: with reliable store commits, decorator-tracked events
receive the status sequence PENDING → SUCCESS/FAILED (`HistoryTracker`)
or PENDING → PROVISIONING → SUCCESS/FAILED (`TerraformTracker`), while
`TerraformExecutor.execute` events receive INITIATED → PROVISIONING →
COMPLETED/FAILED; every such sequence is strictly increasing in the
status order (never reverse), contains exactly one terminal status, and
ends in it (the terminal transition is never skipped). -/
theorem c4_status_sequences (cfg : TrackerConfig) (params : JDict)
    (store0 : EventStore) (op : Except PyErr JValue) (startT endT : ℚ)
    (userId : Int) (vmId credentialId : Option Int)
    (command workingDir : String) (varsMap : Option JDict)
    (eventType : String) (baseEnv : EnvMap)
    (procOutcome : Except PyErr ProcOut)
    (hfresh : ∀ e' ∈ store0, e'.id ≠ store0.length)
    (hinit : cfg.initialStatus = "pending")
    (hsucc : cfg.successStatus = "success")
    (herr : cfg.errorStatus = "failed") :
    ((trackerRun cfg params store0 op startT endT none).2.1
      = match op with
        | Except.ok _ => ["pending", "success"]
        | Except.error _ => ["pending", "failed"])
    ∧ ((terraformTrackerRun cfg params store0 op startT endT none).2.1
      = match op with
        | Except.ok _ => ["pending", "provisioning", "success"]
        | Except.error _ => ["pending", "provisioning", "failed"])
    ∧ ((executeModel store0 userId vmId credentialId command workingDir
          varsMap eventType baseEnv procOutcome startT endT).2.1
      = match procOutcome with
        | Except.error _ => ["initiated", "provisioning", "failed"]
        | Except.ok p =>
            if p.returncode = 0 then ["initiated", "provisioning", "completed"]
            else ["initiated", "provisioning", "failed"])
    ∧ (∀ tr : List String,
        (tr = ["pending", "success"] ∨ tr = ["pending", "failed"]
          ∨ tr = ["pending", "provisioning", "success"]
          ∨ tr = ["pending", "provisioning", "failed"]
          ∨ tr = ["initiated", "provisioning", "completed"]
          ∨ tr = ["initiated", "provisioning", "failed"]) →
        List.Chain' (fun a b => statusRank a < statusRank b) tr
        ∧ (tr.filter (fun s => isTerminalStatus s)).length = 1
        ∧ ∃ t, tr.getLast? = some t ∧ isTerminalStatus t = true) := by
  refine ⟨?_, ?_, ?_, ?_⟩
  · rcases op with e | v
    · rw [trackerRun_err_none cfg params store0 e startT endT hfresh, hinit, herr]
    · rw [trackerRun_ok_none cfg params store0 v startT endT hfresh, hinit, hsucc]
  · rcases op with e | v
    · rw [terraformTrackerRun_err_none cfg params store0 e startT endT hfresh,
        hinit, herr]
    · rw [terraformTrackerRun_ok_none cfg params store0 v startT endT hfresh,
        hinit, hsucc]
  · rcases procOutcome with e | proc
    · rw [executeModel_spawn_err store0 userId vmId credentialId command
        workingDir varsMap eventType baseEnv e startT endT hfresh]
    · by_cases hrc : proc.returncode = 0
      · rw [executeModel_exit_ok store0 userId vmId credentialId command
          workingDir varsMap eventType baseEnv proc startT endT hrc hfresh]
        simp [hrc]
      · rw [executeModel_exit_fail store0 userId vmId credentialId command
          workingDir varsMap eventType baseEnv proc startT endT hrc hfresh]
        simp [hrc]
  · intro tr htr
    rcases htr with rfl | rfl | rfl | rfl | rfl | rfl <;>
      refine ⟨by simp [List.chain'_cons, statusRank], by decide, ?_⟩ <;>
        exact ⟨_, rfl, by decide⟩

/-- Witness for C4's amended theorem at concrete inputs. -/
theorem c4_witness :
    (trackerRun c3demoCfg [] [] (Except.ok JValue.jNull) 0 1 none).2.1
      = ["pending", "success"]
    ∧ (terraformTrackerRun c3demoCfg [] [] (Except.error
        (PyErr.exception "boom")) 0 1 none).2.1
      = ["pending", "provisioning", "failed"] := by
  have h := c4_status_sequences c3demoCfg [] [] (Except.ok JValue.jNull) 0 1
    1 none none "apply" "/w" none "vm_create" []
    (Except.ok { returncode := 0, stdout := "", stderr := "" })
    (by simp) rfl rfl rfl
  have h2 := c4_status_sequences c3demoCfg [] []
    (Except.error (PyErr.exception "boom")) 0 1
    1 none none "apply" "/w" none "vm_create" []
    (Except.ok { returncode := 0, stdout := "", stderr := "" })
    (by simp) rfl rfl rfl
  exact ⟨h.1, h2.2.1⟩

/-!
C5 block: failure diagnostics and secrets.
-/

theorem ensureObj_pyGet (d : JDict) (k : String) :
    pyGet (ensureObj d) k = (pyGet d k).map ensureJsonSerializable := by
  induction d with
  | nil => simp [ensureObj, pyGet]
  | cons hd tl ih =>
      obtain ⟨k', v⟩ := hd
      by_cases h : k' = k <;>
        simp [ensureObj, pyGet, List.find?_cons, h] <;>
          simpa [pyGet] using ih

def c5vars : JDict := [("secret_key", JValue.jStr "TOPSECRET")]

def c5proc : ProcOut :=
  { returncode := 1, stdout := "",
    stderr := "Error: invalid secret TOPSECRET" }

/-- Counterexample for C5: a failed apply whose provider stderr echoes the
sensitive variable value stores that stderr verbatim as the FAILED
event's error_message — the secret value "TOPSECRET" of the sensitive
variables key "secret_key" appears unmasked in the recorded failure
information. -/
theorem c5_counterexample :
    (∃ ev, storeGet (executeModel [] 1 none none "apply" "/w" (some c5vars)
        "vm_create" [] (Except.ok c5proc) 0 1).1 0 = some ev
      ∧ ev.status = "failed"
      ∧ ev.errorMessage = some "Error: invalid secret TOPSECRET"
      ∧ strContains "Error: invalid secret TOPSECRET" "TOPSECRET" = true)
    ∧ ("secret_key", JValue.jStr "TOPSECRET") ∈ c5vars
    ∧ isSensitiveKey "secret_key" = true := by
  exact ⟨⟨_, rfl, rfl, rfl, rfl⟩, by simp [c5vars], rfl⟩

/-- C5 amended: on every provisioning failure the FAILED event records the
raw provider stderr as error_message and the raw streams inside the
result (so the recorded failure detail can contain secret values
verbatim whenever the tool echoes them), while the stored parameters
snapshot contains the variables map only in masked form — sensitive
string values appear there only as the redaction marker. -/
theorem c5_failure_detail (store0 : EventStore) (userId : Int)
    (vmId credentialId : Option Int) (workingDir : String) (vs : JDict)
    (eventType : String) (baseEnv : EnvMap) (proc : ProcOut)
    (startT endT : ℚ) (hrc : ¬ proc.returncode = 0)
    (hfresh : ∀ e' ∈ store0, e'.id ≠ store0.length)
    (hvs : vs.isEmpty = false) :
    ∃ ev, storeGet (executeModel store0 userId vmId credentialId "apply"
        workingDir (some vs) eventType baseEnv (Except.ok proc) startT
        endT).1 store0.length = some ev
      ∧ ev.status = "failed"
      ∧ ev.errorMessage = some proc.stderr
      ∧ (∃ rd, ev.result = some rd
          ∧ pyGet rd "stderr" = some (JValue.jStr proc.stderr)
          ∧ pyGet rd "stdout" = some (JValue.jStr proc.stdout))
      ∧ (∃ pd, ev.parameters = some pd
          ∧ pyGet pd "variables"
              = some (JValue.jObj (ensureObj (maskFields vs)))
          ∧ ∀ k s, (k, JValue.jStr s) ∈ vs → isSensitiveKey k = true →
              (k, JValue.jStr redactionMarker) ∈ maskFields vs) := by
  rw [executeModel_exit_fail store0 userId vmId credentialId "apply"
    workingDir (some vs) eventType baseEnv proc startT endT hrc hfresh]
  refine ⟨_, storeGet_append_at _ _ _ (by rfl) hfresh, rfl, rfl, ?_, ?_⟩
  · refine ⟨_, rfl, ?_, ?_⟩
    · rw [ensureObj_pyGet,
        (parseTerraformOutput_fields proc.stdout proc.stderr "apply").2.1]
      rfl
    · rw [ensureObj_pyGet,
        (parseTerraformOutput_fields proc.stdout proc.stderr "apply").1]
      rfl
  · refine ⟨_, rfl, ?_, ?_⟩
    · simp [executeParams, ensureObj, ensureJsonSerializable, pyGet,
        List.find?_cons, hvs]
    · intro k s hmem hsens
      exact maskFields_mem_sensitive vs k s hmem hsens

/-- Witness for C5's amended theorem at concrete inputs. -/
theorem c5_witness :
    ∃ ev, storeGet (executeModel [] 1 none none "apply" "/w" (some c5vars)
        "vm_create" [] (Except.ok c5proc) 0 1).1 0 = some ev
      ∧ ev.status = "failed"
      ∧ ev.errorMessage = some c5proc.stderr
      ∧ (∃ rd, ev.result = some rd
          ∧ pyGet rd "stderr" = some (JValue.jStr c5proc.stderr)
          ∧ pyGet rd "stdout" = some (JValue.jStr c5proc.stdout))
      ∧ (∃ pd, ev.parameters = some pd
          ∧ pyGet pd "variables"
              = some (JValue.jObj (ensureObj (maskFields c5vars)))
          ∧ ∀ k s, (k, JValue.jStr s) ∈ c5vars → isSensitiveKey k = true →
              (k, JValue.jStr redactionMarker) ∈ maskFields c5vars) :=
  c5_failure_detail [] 1 none none "/w" c5vars "vm_create" [] c5proc 0 1
    (by decide) (by simp) rfl

/-!
C1 block: where secrets go during an AWS apply.
-/

theorem find?_map_overwrite (t : List (String × String)) (k v k' : String)
    (h : ¬ k' = k) :
    (t.map (fun kv => if kv.1 = k then (k, v) else kv)).find?
        (fun kv => kv.1 = k')
      = t.find? (fun kv => kv.1 = k') := by
  have hks : ¬ ((k : String) = k') := fun hk => h hk.symm
  induction t with
  | nil => rfl
  | cons a t ih =>
      rw [List.map_cons]
      by_cases ha : a.1 = k
      · have h2 : ¬ a.1 = k' := by rw [ha]; exact hks
        simp [List.find?_cons, ha, hks, h2, ih]
      · rw [if_neg ha]
        by_cases ha' : a.1 = k' <;> simp [List.find?_cons, ha', ih]

theorem find?_map_hit (t : List (String × String)) (k v : String)
    (h : t.any (fun kv => kv.1 = k) = true) :
    (t.map (fun kv => if kv.1 = k then (k, v) else kv)).find?
        (fun kv => kv.1 = k)
      = some (k, v) := by
  induction t with
  | nil => simp at h
  | cons a t ih =>
      by_cases ha : a.1 = k
      · simp [ha]
      · have h' : t.any (fun kv => kv.1 = k) = true := by
          simpa [ha] using h
        simp [ha, ih h']

theorem envLookup_envSet (env : EnvMap) (k v k' : String) :
    envLookup (envSet env k v) k'
      = if k' = k then some v else envLookup env k' := by
  unfold envSet strDictInsert envLookup strDictGet
  by_cases hany : env.any (fun kv => kv.1 = k)
  · rw [if_pos hany]
    by_cases h : k' = k
    · subst h
      rw [if_pos rfl, find?_map_hit env k' v hany]
    · rw [if_neg h, find?_map_overwrite env k v k' h]
  · rw [if_neg hany, List.find?_append]
    have hnone : env.find? (fun kv => kv.1 = k) = none := by
      rw [List.find?_eq_none]
      intro kv hkv
      simp only [decide_eq_true_eq]
      intro hk
      exact absurd (List.any_eq_true.mpr ⟨kv, hkv, by simp [hk]⟩) hany
    by_cases h : k' = k
    · subst h
      simp [hnone]
    · have hks : ¬ ((k : String) = k') := fun hk => h hk.symm
      have hone : (([(k, v)] : EnvMap).find? (fun kv => kv.1 = k')) = none := by
        simp [hks]
      simp [hone, h]

theorem buildEnv_only_tfvars (vs : JDict) : ∀ (env : EnvMap) (k : String),
    (∀ suffix, k ≠ "TF_VAR_" ++ suffix) →
    envLookup (vs.foldl
        (fun e kv => envSet e ("TF_VAR_" ++ kv.1) (pyStr kv.2)) env) k
      = envLookup env k := by
  induction vs with
  | nil => intro env k _; rfl
  | cons kv t ih =>
      intro env k h
      simp only [List.foldl_cons]
      rw [ih _ k h, envLookup_envSet, if_neg (h kv.1)]

theorem buildEnv_changed_keys (baseEnv : EnvMap) (vs : JDict) (k : String)
    (h : envLookup (buildEnv baseEnv (some vs)) k ≠ envLookup baseEnv k) :
    ∃ suffix, k = "TF_VAR_" ++ suffix := by
  by_contra hc
  push_neg at hc
  apply h
  simp only [buildEnv]
  by_cases he : vs.isEmpty
  · rw [if_pos he]
  · rw [if_neg he]
    exact buildEnv_only_tfvars vs baseEnv k hc

theorem buildEnv_applyAwsVars_secret (baseEnv : EnvMap) (varsIn : JDict) :
    envLookup (buildEnv baseEnv (some (applyAwsVars varsIn)))
        "TF_VAR_secret_key"
      = some (pyStr ((pyGet varsIn "aws_secret_key").getD JValue.jNull)) := by
  simp [buildEnv, applyAwsVars, List.foldl, envLookup_envSet]

theorem executeModel_env (store0 : EventStore) (userId : Int)
    (vmId credentialId : Option Int) (command workingDir : String)
    (varsMap : Option JDict) (eventType : String) (baseEnv : EnvMap)
    (procOutcome : Except PyErr ProcOut) (startT endT : ℚ) :
    (executeModel store0 userId vmId credentialId command workingDir varsMap
        eventType baseEnv procOutcome startT endT).2.2.1
      = buildEnv baseEnv varsMap := by
  rcases procOutcome with e | p
  · rfl
  · by_cases h : p.returncode = 0 <;> simp [executeModel, createEvent, h]

theorem applyAwsModel_parts (providerTemplates : List (String × String))
    (workDir workspaceName : String) (varsIn : JDict) (store0 : EventStore)
    (userId : Int) (vmId : Option Int) (baseEnv : EnvMap)
    (procOutcome : Except PyErr ProcOut) (startT endT : ℚ) :
    (applyAwsModel providerTemplates workDir workspaceName varsIn store0
        userId vmId baseEnv procOutcome startT endT).workspace
      = createVarsFile providerTemplates (applyAwsVars varsIn) workDir
    ∧ (applyAwsModel providerTemplates workDir workspaceName varsIn store0
        userId vmId baseEnv procOutcome startT endT).env
      = buildEnv baseEnv (some (applyAwsVars varsIn)) := by
  simp only [applyAwsModel]
  rcases hE : executeModel store0 userId vmId none "apply" workDir
      (some (applyAwsVars varsIn)) "vm_create" baseEnv procOutcome startT endT
    with ⟨st, tr, env, ret⟩
  have henv : env = buildEnv baseEnv (some (applyAwsVars varsIn)) := by
    have := executeModel_env store0 userId vmId none "apply" workDir
      (some (applyAwsVars varsIn)) "vm_create" baseEnv procOutcome startT endT
    rw [hE] at this
    exact this
  rcases ret with e | sr
  · exact ⟨rfl, henv⟩
  · by_cases h : sr.1 <;> simp [h, henv]

/-- Counterexample for C1: for a concrete apply invocation whose variables
map carries the secret value "TOPSECRET" under `aws_secret_key`, the
workspace's variables file `terraform.tfvars.json` contains that secret
value verbatim under the sensitive key `secret_key` — the secret is
written into the variables file, not only into the process environment. -/
theorem c1_counterexample :
    pyGet (applyAwsModel [("main.tf", "resource aws_instance")] "/tmp/wd"
        "vm-1"
        [("aws_access_key", JValue.jStr "AKIDEXAMPLE"),
         ("aws_secret_key", JValue.jStr "TOPSECRET"),
         ("name", JValue.jStr "demo")]
        [] 1 none [] (Except.ok { returncode := 0, stdout := "", stderr := "" })
        0 1).workspace.tfvarsContent "secret_key"
      = some (JValue.jStr "TOPSECRET")
    ∧ isSensitiveKey "secret_key" = true := ⟨rfl, rfl⟩

/-- C1 amended: for every AWS apply invocation, the whole `vars_data` dict
— including `secret_key`, taken from the caller's `aws_secret_key` — is
written into the variables file `terraform.tfvars.json`; the same secret
is additionally injected into the child environment under the fixed
TF_VAR_ prefix, every environment entry that differs from the parent
environment is TF_VAR_-prefixed, and template files are copied into the
workspace unmodified (no variable value reaches them). -/
theorem c1_secret_channels (providerTemplates : List (String × String))
    (workDir workspaceName : String) (varsIn : JDict) (store0 : EventStore)
    (userId : Int) (vmId : Option Int) (baseEnv : EnvMap)
    (procOutcome : Except PyErr ProcOut) (startT endT : ℚ) :
    (applyAwsModel providerTemplates workDir workspaceName varsIn store0
        userId vmId baseEnv procOutcome startT endT).workspace.tfvarsContent
      = applyAwsVars varsIn
    ∧ pyGet (applyAwsModel providerTemplates workDir workspaceName varsIn
        store0 userId vmId baseEnv procOutcome startT
        endT).workspace.tfvarsContent "secret_key"
      = some ((pyGet varsIn "aws_secret_key").getD JValue.jNull)
    ∧ (applyAwsModel providerTemplates workDir workspaceName varsIn store0
        userId vmId baseEnv procOutcome startT endT).workspace.copiedTemplates
      = (providerTemplates.filter (fun f => f.1.endsWith ".tf")).map
          (fun f => (f.1, f.2))
    ∧ envLookup (applyAwsModel providerTemplates workDir workspaceName varsIn
        store0 userId vmId baseEnv procOutcome startT endT).env
        "TF_VAR_secret_key"
      = some (pyStr ((pyGet varsIn "aws_secret_key").getD JValue.jNull))
    ∧ (∀ k, envLookup (applyAwsModel providerTemplates workDir workspaceName
        varsIn store0 userId vmId baseEnv procOutcome startT endT).env k
          ≠ envLookup baseEnv k → ∃ suffix, k = "TF_VAR_" ++ suffix) := by
  obtain ⟨hws, henv⟩ := applyAwsModel_parts providerTemplates workDir
    workspaceName varsIn store0 userId vmId baseEnv procOutcome startT endT
  refine ⟨?_, ?_, ?_, ?_, ?_⟩
  · rw [hws]
    rfl
  · rw [hws]
    simp [createVarsFile, applyAwsVars, pyGet, List.find?_cons]
  · rw [hws]
    rfl
  · rw [henv]
    exact buildEnv_applyAwsVars_secret baseEnv varsIn
  · intro k hk
    rw [henv] at hk
    exact buildEnv_changed_keys baseEnv (applyAwsVars varsIn) k hk

/-- Witness for C1's amended theorem at a concrete variables map. -/
theorem c1_witness :
    (applyAwsModel [("main.tf", "resource aws_instance")] "/tmp/wd" "vm-1"
        [("aws_secret_key", JValue.jStr "TOPSECRET")] [] 1 none []
        (Except.ok { returncode := 0, stdout := "", stderr := "" }) 0
        1).workspace.tfvarsContent
      = applyAwsVars [("aws_secret_key", JValue.jStr "TOPSECRET")]
    ∧ envLookup (applyAwsModel [("main.tf", "resource aws_instance")]
        "/tmp/wd" "vm-1" [("aws_secret_key", JValue.jStr "TOPSECRET")] [] 1
        none [] (Except.ok { returncode := 0, stdout := "", stderr := "" }) 0
        1).env "TF_VAR_secret_key"
      = some (pyStr ((pyGet [("aws_secret_key", JValue.jStr "TOPSECRET")]
          "aws_secret_key").getD JValue.jNull)) := by
  have h := c1_secret_channels [("main.tf", "resource aws_instance")]
    "/tmp/wd" "vm-1" [("aws_secret_key", JValue.jStr "TOPSECRET")] [] 1 none
    [] (Except.ok { returncode := 0, stdout := "", stderr := "" }) 0 1
  exact ⟨h.1, h.2.2.2.1⟩

/-!
C10 block: destroy on a missing workspace.
-/

/-- C10: invoking destroy (AWS or GCP) for a workspace name whose
directory does not exist fails immediately with the workspace-not-found
error — the `Exception("Workspace <name> tidak ditemukan")` raise that
realizes the spec's `WorkspaceNotFound` — and the event store is left
unchanged: no Event is created for the attempt. -/
theorem c10_destroy_missing_workspace (terraformDir workspaceName : String)
    (existingDirs : List String) (store0 : EventStore) (db : Bool)
    (userId : Option Int) (vmId : Option Int) (baseEnv : EnvMap)
    (initOutcome procOutcome : Except PyErr ProcOut) (startT endT : ℚ)
    (hmiss : pathJoin (pathJoin terraformDir "workspaces") workspaceName
      ∉ existingDirs) :
    destroyAwsModel terraformDir workspaceName existingDirs store0 db userId
        vmId baseEnv initOutcome procOutcome startT endT
      = (store0, Except.error (PyErr.exception
          ("Workspace " ++ workspaceName ++ " tidak ditemukan")))
    ∧ destroyGcpModel terraformDir workspaceName existingDirs store0 db userId
        vmId baseEnv initOutcome procOutcome startT endT
      = (store0, Except.error (PyErr.exception
          ("Workspace " ++ workspaceName ++ " tidak ditemukan"))) := by
  constructor <;>
    simp [destroyAwsModel, destroyGcpModel, List.contains, List.elem_eq_mem,
      hmiss]

/-- Witness for C10: destroying "vm-9" with no directory on disk. -/
theorem c10_witness :
    destroyAwsModel "/opt/terraform" "vm-9" [] [] true (some 1) (some 9) []
        (Except.ok { returncode := 0, stdout := "", stderr := "" })
        (Except.ok { returncode := 0, stdout := "", stderr := "" }) 0 1
      = ([], Except.error (PyErr.exception
          ("Workspace " ++ "vm-9" ++ " tidak ditemukan"))) := by
  exact (c10_destroy_missing_workspace "/opt/terraform" "vm-9" [] [] true
    (some 1) (some 9) []
    (Except.ok { returncode := 0, stdout := "", stderr := "" })
    (Except.ok { returncode := 0, stdout := "", stderr := "" }) 0 1
    (by simp)).1
